import Mathlib

/-!
Verification of the client-channel core (retry orchestrator, round-robin and
grpclb load-balancing policies, health-check client, service-config parsing).

The definitions below are a shallow embedding of the C/C++ sources:

* `src/core/ext/filters/client_channel/client_channel.c`
* `src/core/ext/filters/client_channel/lb_policy/round_robin/round_robin.cc`
* `src/core/ext/filters/client_channel/lb_policy/grpclb/grpclb.cc`
* `src/core/ext/filters/client_channel/health/health_check_client.cc`

Machine integers are modelled as `Nat`/`Int` (no overflow is relevant to the
properties below), strings as `String` or `List Char`, and external
collaborators (metadata copies, the retry throttle, timers, the transport)
as explicit oracle inputs or event outputs.  Functions defined only in files
that are not part of the sources here (for example
`gpr_parse_nonnegative_int`, `grpc_status_from_string`,
`grpc_lb_subchannel_list_create`) are modelled from the specification and
carry a doc comment saying so.
-/

/-- Connectivity states of a channel or subchannel (`grpc_connectivity_state`). -/
inductive ConnectivityState where
  | idle
  | connecting
  | ready
  | transientFailure
  | shutdown
deriving DecidableEq, Repr, Inhabited

/-- The gRPC status codes (`grpc_status_code`). -/
inductive GrpcStatus where
  | ok
  | cancelled
  | unknown
  | invalidArgument
  | deadlineExceeded
  | notFound
  | alreadyExists
  | permissionDenied
  | unauthenticated
  | resourceExhausted
  | failedPrecondition
  | aborted
  | outOfRange
  | unimplemented
  | internal
  | unavailable
  | dataLoss
deriving DecidableEq, Repr, Inhabited

/-- `retry_policy_params` from `client_channel.c`.  The C struct stores
`int` fields (filled by `gpr_parse_nonnegative_int`, so `-1` marks a parse
failure and `0` is the "not yet set" sentinel used by the parser) and a
`grpc_status_code*` array that may be `NULL`; the `NULL` pointer is modelled
as `none`. -/
structure RetryPolicyParams where
  max_retry_attempts : Int
  initial_backoff_ms : Int
  max_backoff_ms : Int
  backoff_multiplier : Int
  retryable_status_codes : Option (List GrpcStatus)
deriving DecidableEq, Repr, Inhabited

/-- `wait_for_ready_value` from `client_channel.c`. -/
inductive WaitForReadyValue where
  | unset
  | wfrFalse
  | wfrTrue
deriving DecidableEq, Repr, Inhabited

/-- `gpr_timespec` restricted to the two fields `parse_timeout` writes. -/
structure GprTimespec where
  tv_sec : Int
  tv_nsec : Int
deriving DecidableEq, Repr, Inhabited

/-- `method_parameters` from `client_channel.c` (without the refcount). -/
structure MethodParameters where
  timeout : GprTimespec
  wait_for_ready : WaitForReadyValue
  retry_policy : Option RetryPolicyParams
deriving DecidableEq, Repr, Inhabited

/-- One surface op batch (`grpc_transport_stream_op_batch`) as seen by the
retry code.  Metadata batches are abstracted by the byte size that
`grpc_metadata_batch_size` reports for them, a `send_message` byte stream by
its `length`, and the outcome of the two external `grpc_metadata_batch_copy`
calls by the `..._copy_fails` oracle fields. -/
structure OpBatch where
  send_initial_metadata : Bool
  send_initial_metadata_size : Nat
  send_initial_metadata_flags : Nat
  send_initial_metadata_copy_fails : Bool
  send_message : Bool
  send_message_length : Nat
  send_trailing_metadata : Bool
  send_trailing_metadata_size : Nat
  send_trailing_metadata_copy_fails : Bool
  recv_initial_metadata : Bool
  recv_message : Bool
  recv_trailing_metadata : Bool
  cancel_stream : Bool
deriving DecidableEq, Repr, Inhabited

/-- `pending_batch` from `client_channel.c` (an occupied slot of the
`pending_batches` array; empty slots are simply absent from the list held
in `CallData.pending_batches`). -/
structure PendingBatch where
  batch : OpBatch
  retry_checks_for_new_batch_done : Bool
deriving DecidableEq, Repr, Inhabited

/-- The retry-related fields of `call_data` in `client_channel.c`.  The
cached copy of the send-initial/trailing metadata is abstracted by its size
(`..._storage = some size` standing for a non-`NULL` storage pointer), and
each cached `send_message` byte stream by its length.  `surface_error`
models `calld->error != GRPC_ERROR_NONE` and `has_subchannel_call` models
`calld->subchannel_call != NULL`. -/
structure CallData where
  method_params : Option MethodParameters
  retry_committed : Bool
  num_retry_attempts : Int
  bytes_buffered_for_retry : Nat
  seen_send_initial_metadata : Bool
  send_initial_metadata_storage : Option Nat
  send_initial_metadata_flags : Nat
  num_send_message_ops : Nat
  cached_send_messages : List Nat
  seen_send_trailing_metadata : Bool
  send_trailing_metadata_storage : Option Nat
  surface_error : Bool
  has_subchannel_call : Bool
  pending_batches : List PendingBatch
deriving DecidableEq, Repr, Inhabited

/-- `retry_committed()` from `client_channel.c` (lines 1278-1296): marks the
call committed.  The C function additionally frees the cached send data; it
does not reset `seen_send_initial_metadata`, `num_send_message_ops` or the
other bookkeeping fields, so only the flag changes here. -/
def retry_committed (calld : CallData) : CallData :=
  if calld.retry_committed then calld else { calld with retry_committed := true }

/-- The send-op caching tail of `retry_checks_for_new_batch()` (lines
1340-1391 of `client_channel.c`): copy the initial metadata (committing on
copy failure), cache the message, copy the trailing metadata (committing on
copy failure). -/
def retry_cache_send_ops (calld : CallData) (batch : OpBatch) : CallData :=
  if batch.send_initial_metadata && batch.send_initial_metadata_copy_fails then
    retry_committed { calld with seen_send_initial_metadata := true }
  else
    let calld :=
      if batch.send_initial_metadata then
        { calld with
          seen_send_initial_metadata := true,
          send_initial_metadata_storage := some batch.send_initial_metadata_size,
          send_initial_metadata_flags := batch.send_initial_metadata_flags }
      else calld
    let calld :=
      if batch.send_message then
        { calld with
          num_send_message_ops := calld.num_send_message_ops + 1,
          cached_send_messages :=
            calld.cached_send_messages ++ [batch.send_message_length] }
      else calld
    if batch.send_trailing_metadata && batch.send_trailing_metadata_copy_fails then
      retry_committed { calld with seen_send_trailing_metadata := true }
    else
      if batch.send_trailing_metadata then
        { calld with
          seen_send_trailing_metadata := true,
          send_trailing_metadata_storage := some batch.send_trailing_metadata_size }
      else calld

/-- `retry_checks_for_new_batch()` from `client_channel.c` (lines
1309-1392).  If retries are configured and the call is not committed, adds
the batch's send sizes to `bytes_buffered_for_retry`; commits (and stops)
when the total exceeds `per_rpc_retry_buffer_size`, otherwise caches the
send ops via `retry_cache_send_ops`. -/
def retry_checks_for_new_batch (per_rpc_retry_buffer_size : Nat)
    (calld : CallData) (pending : PendingBatch) : CallData × PendingBatch :=
  if pending.retry_checks_for_new_batch_done then (calld, pending)
  else
    let pending := { pending with retry_checks_for_new_batch_done := true }
    let batch := pending.batch
    if batch.cancel_stream then (calld, pending)
    else
      match calld.method_params with
      | none => (calld, pending)
      | some mp =>
        if mp.retry_policy.isNone || calld.retry_committed then (calld, pending)
        else
          let bytes := calld.bytes_buffered_for_retry +
            (if batch.send_initial_metadata then batch.send_initial_metadata_size else 0)
          let bytes := bytes +
            (if batch.send_message then batch.send_message_length else 0)
          let calld := { calld with bytes_buffered_for_retry := bytes }
          if per_rpc_retry_buffer_size < bytes then (retry_committed calld, pending)
          else (retry_cache_send_ops calld batch, pending)

theorem retry_committed_eq (calld : CallData) :
    retry_committed calld = { calld with retry_committed := true } := by
  unfold retry_committed
  split_ifs with h
  · cases calld
    simp_all
  · rfl

theorem retry_cache_send_ops_bytes (calld : CallData) (batch : OpBatch) :
    (retry_cache_send_ops calld batch).bytes_buffered_for_retry =
      calld.bytes_buffered_for_retry := by
  unfold retry_cache_send_ops
  simp only [retry_committed_eq]
  split_ifs <;> rfl

/-- The number of bytes `retry_checks_for_new_batch` adds to
`bytes_buffered_for_retry` for one batch (lines 1327-1334). -/
def batch_buffered_bytes (batch : OpBatch) : Nat :=
  (if batch.send_initial_metadata then batch.send_initial_metadata_size else 0) +
  (if batch.send_message then batch.send_message_length else 0)

/-- C1: with a retry policy configured, `bytes_buffered_for_retry` stays at
or below `per_rpc_retry_buffer_size` while the call is not committed, and
the first time the cumulative send size exceeds the limit,
`retry_checks_for_new_batch` commits the call and returns before caching
any data from that batch (all cache fields are left unchanged). -/
theorem retry_buffer_limit_holds (limit : Nat) (calld : CallData)
    (pending : PendingBatch)
    (hinv : calld.retry_committed = false → calld.bytes_buffered_for_retry ≤ limit) :
    ((retry_checks_for_new_batch limit calld pending).1.retry_committed = false →
      (retry_checks_for_new_batch limit calld pending).1.bytes_buffered_for_retry ≤ limit) ∧
    (∀ mp rp, calld.method_params = some mp → mp.retry_policy = some rp →
      calld.retry_committed = false →
      pending.retry_checks_for_new_batch_done = false →
      pending.batch.cancel_stream = false →
      limit < calld.bytes_buffered_for_retry + batch_buffered_bytes pending.batch →
      (retry_checks_for_new_batch limit calld pending).1.retry_committed = true ∧
      (retry_checks_for_new_batch limit calld pending).1.seen_send_initial_metadata =
        calld.seen_send_initial_metadata ∧
      (retry_checks_for_new_batch limit calld pending).1.send_initial_metadata_storage =
        calld.send_initial_metadata_storage ∧
      (retry_checks_for_new_batch limit calld pending).1.num_send_message_ops =
        calld.num_send_message_ops ∧
      (retry_checks_for_new_batch limit calld pending).1.cached_send_messages =
        calld.cached_send_messages ∧
      (retry_checks_for_new_batch limit calld pending).1.seen_send_trailing_metadata =
        calld.seen_send_trailing_metadata ∧
      (retry_checks_for_new_batch limit calld pending).1.send_trailing_metadata_storage =
        calld.send_trailing_metadata_storage) := by
  constructor
  · intro h
    unfold retry_checks_for_new_batch at h ⊢
    cases hmp : calld.method_params with
    | none =>
      simp only [hmp] at h ⊢
      split_ifs at h ⊢ <;> exact hinv h
    | some mp =>
      simp only [hmp] at h ⊢
      split_ifs at h ⊢ <;>
        first
          | exact hinv h
          | (rw [retry_committed_eq] at h; exact absurd h (by simp))
          | (rw [retry_cache_send_ops_bytes]; dsimp only; omega)
  · intro mp rp hmp hrp hcom hdone hcancel hover
    have hpol : mp.retry_policy.isNone = false := by simp [hrp]
    unfold retry_checks_for_new_batch
    have hover' : limit <
        calld.bytes_buffered_for_retry +
          (if pending.batch.send_initial_metadata then
            pending.batch.send_initial_metadata_size else 0) +
          (if pending.batch.send_message then pending.batch.send_message_length
            else 0) := by
      unfold batch_buffered_bytes at hover
      split_ifs at hover ⊢ <;> omega
    simp only [hdone, hcancel, hmp, hpol, hcom, Bool.false_eq_true, if_false,
      Bool.or_self, if_true, if_pos hover', retry_committed_eq]
    simp

/-- Concrete witness for `retry_buffer_limit_holds`: a call that has
buffered 5 bytes against a 10-byte limit receives a 100-byte message. -/
def c1_calld : CallData :=
  { method_params := some
      { timeout := ⟨0, 0⟩
        wait_for_ready := WaitForReadyValue.unset
        retry_policy := some ⟨3, 100, 1000, 2, some [GrpcStatus.unavailable]⟩ }
    retry_committed := false
    num_retry_attempts := 0
    bytes_buffered_for_retry := 5
    seen_send_initial_metadata := true
    send_initial_metadata_storage := some 5
    send_initial_metadata_flags := 0
    num_send_message_ops := 0
    cached_send_messages := []
    seen_send_trailing_metadata := false
    send_trailing_metadata_storage := none
    surface_error := false
    has_subchannel_call := true
    pending_batches := [] }

/-- The over-limit batch used in the C1 witness. -/
def c1_pending : PendingBatch :=
  { batch :=
      { send_initial_metadata := false
        send_initial_metadata_size := 0
        send_initial_metadata_flags := 0
        send_initial_metadata_copy_fails := false
        send_message := true
        send_message_length := 100
        send_trailing_metadata := false
        send_trailing_metadata_size := 0
        send_trailing_metadata_copy_fails := false
        recv_initial_metadata := false
        recv_message := false
        recv_trailing_metadata := false
        cancel_stream := false }
    retry_checks_for_new_batch_done := false }

/-- Witness: `retry_buffer_limit_holds` applied at the concrete call above;
the overflowing batch commits the call without caching its message. -/
theorem retry_buffer_limit_holds_witness :
    (retry_checks_for_new_batch 10 c1_calld c1_pending).1.retry_committed = true ∧
    (retry_checks_for_new_batch 10 c1_calld c1_pending).1.num_send_message_ops = 0 := by
  have h := retry_buffer_limit_holds 10 c1_calld c1_pending (by decide)
  have h2 := h.2 _ _ rfl rfl (by decide) (by decide) (by decide) (by decide)
  exact ⟨h2.1, h2.2.2.2.1⟩

/-- `subchannel_call_retry_state` from `client_channel.c` (lines 954-980),
without the payload block and the saved errors. -/
structure SubchannelCallRetryState where
  started_send_message_count : Nat
  started_send_initial_metadata : Bool
  started_send_trailing_metadata : Bool
  started_recv_initial_metadata : Bool
  started_recv_message : Bool
  started_recv_trailing_metadata : Bool
  completed_send_message_count : Nat
  completed_send_initial_metadata : Bool
  completed_send_trailing_metadata : Bool
  completed_recv_initial_metadata : Bool
  completed_recv_message : Bool
  completed_recv_trailing_metadata : Bool
  recv_initial_metadata_ready_pending : Bool
  recv_message_null_pending : Bool
  retry_dispatched : Bool
deriving DecidableEq, Repr, Inhabited

/-- `is_status_code_in_list()` from `client_channel.c` (lines 1394-1401):
a `NULL` list accepts every status. -/
def is_status_code_in_list (status : GrpcStatus) :
    Option (List GrpcStatus) → Bool
  | none => true
  | some l => l.contains status

/-- Outcome of one `maybe_retry()` call: its return value, the updated call
data, the updated per-attempt retry state (when a `batch_data` was given),
whether a retry timer was armed (`grpc_timer_init`), and which throttle
operation was invoked. -/
structure MaybeRetryResult where
  retried : Bool
  calld : CallData
  retry_state : Option SubchannelCallRetryState
  timer_armed : Bool
  recorded_success : Bool
  recorded_failure : Bool
deriving DecidableEq, Repr

/-- `maybe_retry()` from `client_channel.c` (lines 1407-1495).  The retry
throttle lives outside these sources, so the return value of
`grpc_server_retry_throttle_data_record_failure` is the oracle input
`throttle_allows_retry`; the back-off computation and
`grpc_timer_init` are reported through `timer_armed`.  The C code asserts
that `method_params` and its `retry_policy` are non-`NULL`; a zeroed policy
is substituted when they are absent so that the function stays total. -/
def maybe_retry (calld : CallData)
    (retry_state : Option SubchannelCallRetryState) (status : GrpcStatus)
    (throttle_allows_retry : Bool) : MaybeRetryResult :=
  let retry_policy :=
    (calld.method_params.bind fun mp => mp.retry_policy).getD
      ⟨0, 0, 0, 0, none⟩
  if (match retry_state with
      | some rs => rs.retry_dispatched
      | none => false) then
    { retried := true, calld := calld, retry_state := retry_state,
      timer_armed := false, recorded_success := false, recorded_failure := false }
  else if status = GrpcStatus.ok then
    { retried := false, calld := calld, retry_state := retry_state,
      timer_armed := false, recorded_success := true, recorded_failure := false }
  else if !(is_status_code_in_list status retry_policy.retryable_status_codes) then
    { retried := false, calld := calld, retry_state := retry_state,
      timer_armed := false, recorded_success := false, recorded_failure := false }
  else if !throttle_allows_retry then
    { retried := false, calld := calld, retry_state := retry_state,
      timer_armed := false, recorded_success := false, recorded_failure := true }
  else if calld.retry_committed then
    { retried := false, calld := calld, retry_state := retry_state,
      timer_armed := false, recorded_success := false, recorded_failure := true }
  else if calld.num_retry_attempts = retry_policy.max_retry_attempts then
    { retried := false, calld := calld, retry_state := retry_state,
      timer_armed := false, recorded_success := false, recorded_failure := true }
  else if calld.surface_error then
    { retried := false, calld := calld, retry_state := retry_state,
      timer_armed := false, recorded_success := false, recorded_failure := true }
  else
    let calld := { calld with has_subchannel_call := false }
    let retry_state :=
      match retry_state with
      | some rs => some { rs with retry_dispatched := true }
      | none => none
    { retried := true,
      calld := { calld with num_retry_attempts := calld.num_retry_attempts + 1 },
      retry_state := retry_state,
      timer_armed := true, recorded_success := false, recorded_failure := true }

/-- Call data used by the C2 counterexample: three retries (the policy
maximum) have already been dispatched. -/
def c2_calld : CallData :=
  { c1_calld with num_retry_attempts := 3, bytes_buffered_for_retry := 0 }

/-- Per-attempt retry state used by the C2 counterexample: a retry has
already been dispatched from this attempt. -/
def c2_retry_state : SubchannelCallRetryState :=
  { started_send_message_count := 0
    started_send_initial_metadata := true
    started_send_trailing_metadata := false
    started_recv_initial_metadata := true
    started_recv_message := true
    started_recv_trailing_metadata := true
    completed_send_message_count := 0
    completed_send_initial_metadata := true
    completed_send_trailing_metadata := false
    completed_recv_initial_metadata := false
    completed_recv_message := false
    completed_recv_trailing_metadata := true
    recv_initial_metadata_ready_pending := false
    recv_message_null_pending := false
    retry_dispatched := true }

/-- C2 counterexample: with `num_retry_attempts` equal to
`max_retry_attempts` (both 3) but `retry_dispatched` already set on the
attempt, `maybe_retry` returns `true`, not `false` as the claim states.
(It still does not arm a retry timer or change `num_retry_attempts`.) -/
theorem maybe_retry_claim_counterexample :
    c2_calld.num_retry_attempts = 3 ∧
    (c2_calld.method_params.bind fun mp => mp.retry_policy) =
      some ⟨3, 100, 1000, 2, some [GrpcStatus.unavailable]⟩ ∧
    (maybe_retry c2_calld (some c2_retry_state) GrpcStatus.unavailable
      true).retried = true := by
  refine ⟨rfl, rfl, ?_⟩
  decide

/-- C2 (amended): `maybe_retry` never pushes `num_retry_attempts` past
`max_retry_attempts`; when the two are equal it arms no retry timer and
leaves the counter unchanged, and it returns `false` unless a retry was
already dispatched from this attempt (in which case it returns `true` while
still scheduling nothing). -/
theorem maybe_retry_attempts_bounded (calld : CallData)
    (retry_state : Option SubchannelCallRetryState) (status : GrpcStatus)
    (throttle_allows_retry : Bool) (mp : MethodParameters)
    (rp : RetryPolicyParams) (hmp : calld.method_params = some mp)
    (hrp : mp.retry_policy = some rp)
    (hle : calld.num_retry_attempts ≤ rp.max_retry_attempts) :
    (maybe_retry calld retry_state status
        throttle_allows_retry).calld.num_retry_attempts ≤
      rp.max_retry_attempts ∧
    (calld.num_retry_attempts = rp.max_retry_attempts →
      (maybe_retry calld retry_state status
          throttle_allows_retry).timer_armed = false ∧
      (maybe_retry calld retry_state status
          throttle_allows_retry).calld.num_retry_attempts =
        calld.num_retry_attempts ∧
      ((match retry_state with
        | some rs => rs.retry_dispatched
        | none => false) = false →
        (maybe_retry calld retry_state status
            throttle_allows_retry).retried = false)) := by
  unfold maybe_retry
  simp only [hmp, hrp, Option.some_bind, Option.getD_some]
  split_ifs with h1 h2 h3 h4 h5 h6 h7
  · exact ⟨hle, fun _ => ⟨rfl, rfl, fun hnd => absurd h1 (by simp [hnd])⟩⟩
  · exact ⟨hle, fun _ => ⟨rfl, rfl, fun _ => rfl⟩⟩
  · exact ⟨hle, fun _ => ⟨rfl, rfl, fun _ => rfl⟩⟩
  · exact ⟨hle, fun _ => ⟨rfl, rfl, fun _ => rfl⟩⟩
  · exact ⟨hle, fun _ => ⟨rfl, rfl, fun _ => rfl⟩⟩
  · exact ⟨hle, fun _ => ⟨rfl, rfl, fun _ => rfl⟩⟩
  · exact ⟨hle, fun _ => ⟨rfl, rfl, fun _ => rfl⟩⟩
  · exact ⟨show calld.num_retry_attempts + 1 ≤ rp.max_retry_attempts by omega,
      fun hmax => absurd hmax h6⟩

/-- Witness for `maybe_retry_attempts_bounded` at the concrete C2 call:
at the attempt cap, no timer is armed and the counter stays at 3. -/
theorem maybe_retry_attempts_bounded_witness :
    (maybe_retry c2_calld (some c2_retry_state) GrpcStatus.unavailable
        true).calld.num_retry_attempts ≤ 3 ∧
    (maybe_retry c2_calld (some c2_retry_state) GrpcStatus.unavailable
        true).timer_armed = false := by
  have h := maybe_retry_attempts_bounded c2_calld (some c2_retry_state)
    GrpcStatus.unavailable true _ _ rfl rfl (by decide)
  exact ⟨h.1, (h.2 (by decide)).1⟩

/-- `DEFAULT_PER_RPC_RETRY_BUFFER_SIZE` from `client_channel.c` line 61. -/
def DEFAULT_PER_RPC_RETRY_BUFFER_SIZE : Nat := 1 <<< 30

/-- One batch as built by `start_retriable_subchannel_batches` for the
transport call (`subchannel_batch_data`): which ops it carries, and for
`send_message` the index of the cached message it replays. -/
structure SubchannelBatch where
  send_initial_metadata : Bool
  send_message_index : Option Nat
  send_trailing_metadata : Bool
  recv_initial_metadata : Bool
  recv_message : Bool
  recv_trailing_metadata : Bool
deriving DecidableEq, Repr, Inhabited

/-- A `subchannel_batch_data` fresh out of `batch_data_create` (no ops). -/
def empty_subchannel_batch : SubchannelBatch :=
  ⟨false, none, false, false, false, false⟩

/-- One iteration of the first loop of `start_retriable_subchannel_batches`
(lines 1885-1889 of `client_channel.c`): run `retry_checks_for_new_batch`
on a pending batch, threading the call data. -/
def retry_checks_step (per_rpc_retry_buffer_size : Nat)
    (acc : CallData × List PendingBatch) (pending : PendingBatch) :
    CallData × List PendingBatch :=
  let r := retry_checks_for_new_batch per_rpc_retry_buffer_size acc.1 pending
  (r.1, acc.2 ++ [r.2])

/-- The send-batch construction of `start_retriable_subchannel_batches`
(lines 1895-1956 of `client_channel.c`).  Note that, exactly as in the
source, `send_message_op_pending` compares
`started_send_message_count < completed_send_message_count` and the
`send_trailing_metadata` op is gated on `started_send_message_count ==
num_send_message_ops` (started, not completed). -/
def build_send_batch (calld : CallData) (rs : SubchannelCallRetryState) :
    Option SubchannelBatch × SubchannelCallRetryState :=
  let start_sim := calld.seen_send_initial_metadata && !rs.started_send_initial_metadata
  let sb : Option SubchannelBatch :=
    if start_sim then some { empty_subchannel_batch with send_initial_metadata := true }
    else none
  let rs := if start_sim then { rs with started_send_initial_metadata := true } else rs
  let have_pending_send_message_ops :=
    decide (rs.started_send_message_count < calld.num_send_message_ops)
  let send_message_op_pending :=
    decide (rs.started_send_message_count < rs.completed_send_message_count)
  let do_msg := have_pending_send_message_ops && !send_message_op_pending
  let sb :=
    if do_msg then
      some { (sb.getD empty_subchannel_batch) with
              send_message_index := some rs.started_send_message_count }
    else sb
  let rs :=
    if do_msg then
      { rs with started_send_message_count := rs.started_send_message_count + 1 }
    else rs
  let do_tm := calld.seen_send_trailing_metadata &&
      (rs.started_send_message_count == calld.num_send_message_ops) &&
      !rs.started_send_trailing_metadata
  let sb :=
    if do_tm then
      some { (sb.getD empty_subchannel_batch) with send_trailing_metadata := true }
    else sb
  let rs := if do_tm then { rs with started_send_trailing_metadata := true } else rs
  (sb, rs)

/-- One iteration of the recv-batch loop of
`start_retriable_subchannel_batches` (lines 1963-2025 of
`client_channel.c`). -/
def build_recv_batch_step (acc : List SubchannelBatch × SubchannelCallRetryState)
    (pending : PendingBatch) : List SubchannelBatch × SubchannelCallRetryState :=
  let batch := pending.batch
  let start_recv_initial_metadata :=
    batch.recv_initial_metadata && !acc.2.started_recv_initial_metadata
  let start_recv_message := batch.recv_message && !acc.2.started_recv_message
  let start_recv_trailing_metadata :=
    batch.recv_trailing_metadata && !acc.2.started_recv_trailing_metadata
  if !start_recv_initial_metadata && !start_recv_message &&
      !start_recv_trailing_metadata then acc
  else
    let rs := { acc.2 with
      started_recv_initial_metadata :=
        acc.2.started_recv_initial_metadata || start_recv_initial_metadata,
      started_recv_message := acc.2.started_recv_message || start_recv_message,
      started_recv_trailing_metadata :=
        acc.2.started_recv_trailing_metadata || start_recv_trailing_metadata }
    (acc.1 ++ [{ empty_subchannel_batch with
        recv_initial_metadata := start_recv_initial_metadata,
        recv_message := start_recv_message,
        recv_trailing_metadata := start_recv_trailing_metadata }], rs)

/-- `start_retriable_subchannel_batches()` from `client_channel.c` (lines
1877-2048): run the retry checks over the pending batches, build at most
one send batch from the caches, then one recv batch per pending batch with
not-yet-started recv ops, and hand the batch list to the transport call. -/
def start_retriable_subchannel_batches (per_rpc_retry_buffer_size : Nat)
    (calld : CallData) (rs : SubchannelCallRetryState) :
    List SubchannelBatch × CallData × SubchannelCallRetryState :=
  let r := calld.pending_batches.foldl
    (retry_checks_step per_rpc_retry_buffer_size) (calld, [])
  let calld := { r.1 with pending_batches := r.2 }
  let s := build_send_batch calld rs
  let rr := calld.pending_batches.foldl build_recv_batch_step ([], s.2)
  ((match s.1 with
    | some b => [b]
    | none => []) ++ rr.1, calld, rr.2)

theorem build_send_batch_trailing (calld : CallData)
    (rs : SubchannelCallRetryState) (b : SubchannelBatch)
    (hb : (build_send_batch calld rs).1 = some b)
    (htm : b.send_trailing_metadata = true) :
    (build_send_batch calld rs).2.started_send_message_count =
      calld.num_send_message_ops := by
  unfold build_send_batch at hb ⊢
  dsimp only at hb ⊢
  split_ifs at hb ⊢ <;> simp_all [empty_subchannel_batch] <;>
    (subst hb; simp at htm)

theorem build_recv_batches_aux (pbs : List PendingBatch)
    (init : List SubchannelBatch × SubchannelCallRetryState) :
    (pbs.foldl build_recv_batch_step init).2.started_send_message_count =
      init.2.started_send_message_count ∧
    (∀ b ∈ (pbs.foldl build_recv_batch_step init).1,
      b ∈ init.1 ∨ b.send_trailing_metadata = false) := by
  induction pbs generalizing init with
  | nil => exact ⟨rfl, fun b hb => Or.inl hb⟩
  | cons pb rest ih =>
    simp only [List.foldl_cons]
    have step := ih (build_recv_batch_step init pb)
    refine ⟨?_, ?_⟩
    · rw [step.1]
      unfold build_recv_batch_step
      dsimp only
      split_ifs <;> rfl
    · intro b hb
      rcases step.2 b hb with h | h
      · unfold build_recv_batch_step at h
        dsimp only at h
        split_ifs at h
        · exact Or.inl h
        · simp only [List.mem_append, List.mem_singleton] at h
          rcases h with h | h
          · exact Or.inl h
          · subst h
            exact Or.inr rfl
      · exact Or.inr h

/-- C3 (amended): every batch built by `start_retriable_subchannel_batches`
that carries `send_trailing_metadata` is built only once all cached
`send_message` ops have been started (dispatched) on this attempt:
afterwards `started_send_message_count` equals `num_send_message_ops`.
(The gate is on started, not completed, ops; see the counterexample.) -/
theorem send_trailing_metadata_after_all_sends_started
    (per_rpc_retry_buffer_size : Nat) (calld : CallData)
    (rs : SubchannelCallRetryState) (b : SubchannelBatch)
    (hb : b ∈ (start_retriable_subchannel_batches per_rpc_retry_buffer_size
      calld rs).1)
    (htm : b.send_trailing_metadata = true) :
    (start_retriable_subchannel_batches per_rpc_retry_buffer_size
        calld rs).2.2.started_send_message_count =
      (start_retriable_subchannel_batches per_rpc_retry_buffer_size
        calld rs).2.1.num_send_message_ops := by
  unfold start_retriable_subchannel_batches at hb ⊢
  set r := calld.pending_batches.foldl
    (retry_checks_step per_rpc_retry_buffer_size) (calld, []) with hr
  set calld2 : CallData := { r.1 with pending_batches := r.2 } with hc2
  set s := build_send_batch calld2 rs with hs
  have haux := build_recv_batches_aux calld2.pending_batches ([], s.2)
  rw [haux.1]
  simp only [List.mem_append] at hb
  rcases hb with hb | hb
  · rcases hsb : s.1 with _ | sb
    · rw [hsb] at hb
      simp at hb
    · rw [hsb] at hb
      simp only [List.mem_singleton] at hb
      subst hb
      exact build_send_batch_trailing calld2 rs b hsb htm
  · rcases haux.2 b hb with h | h
    · simp at h
    · rw [htm] at h
      exact Bool.noConfusion h

/-- The pending unary batch (all six ops) used in the C3 scenario. -/
def c3_pending : PendingBatch :=
  { batch :=
      { send_initial_metadata := true
        send_initial_metadata_size := 10
        send_initial_metadata_flags := 0
        send_initial_metadata_copy_fails := false
        send_message := true
        send_message_length := 5
        send_trailing_metadata := true
        send_trailing_metadata_size := 3
        send_trailing_metadata_copy_fails := false
        recv_initial_metadata := true
        recv_message := true
        recv_trailing_metadata := true
        cancel_stream := false }
    retry_checks_for_new_batch_done := false }

/-- Call data for the C3 scenario: a retry-enabled unary call whose first
attempt is about to be started. -/
def c3_calld : CallData :=
  { c1_calld with
    bytes_buffered_for_retry := 0
    seen_send_initial_metadata := false
    send_initial_metadata_storage := none
    pending_batches := [c3_pending] }

/-- A fresh per-attempt retry state (all counters zero). -/
def c3_rs : SubchannelCallRetryState :=
  { started_send_message_count := 0
    started_send_initial_metadata := false
    started_send_trailing_metadata := false
    started_recv_initial_metadata := false
    started_recv_message := false
    started_recv_trailing_metadata := false
    completed_send_message_count := 0
    completed_send_initial_metadata := false
    completed_send_trailing_metadata := false
    completed_recv_initial_metadata := false
    completed_recv_message := false
    completed_recv_trailing_metadata := false
    recv_initial_metadata_ready_pending := false
    recv_message_null_pending := false
    retry_dispatched := false }

/-- C3 counterexample: on a unary call with one cached `send_message`,
`start_retriable_subchannel_batches` issues `send_trailing_metadata` in the
very same batch as the message, while `completed_send_message_count` is
still 0 and `num_send_message_ops` is 1 — i.e. before all cached
`send_message` ops have finished on the attempt, contradicting the claim. -/
theorem send_trailing_metadata_claim_counterexample :
    (start_retriable_subchannel_batches DEFAULT_PER_RPC_RETRY_BUFFER_SIZE
        c3_calld c3_rs).1 =
      [{ send_initial_metadata := true
         send_message_index := some 0
         send_trailing_metadata := true
         recv_initial_metadata := false
         recv_message := false
         recv_trailing_metadata := false },
       { send_initial_metadata := false
         send_message_index := none
         send_trailing_metadata := false
         recv_initial_metadata := true
         recv_message := true
         recv_trailing_metadata := true }] ∧
    c3_rs.completed_send_message_count = 0 ∧
    (start_retriable_subchannel_batches DEFAULT_PER_RPC_RETRY_BUFFER_SIZE
        c3_calld c3_rs).2.1.num_send_message_ops = 1 ∧
    (start_retriable_subchannel_batches DEFAULT_PER_RPC_RETRY_BUFFER_SIZE
        c3_calld c3_rs).2.2.completed_send_message_count = 0 := by
  refine ⟨?_, rfl, ?_, ?_⟩ <;> decide

/-- Witness for `send_trailing_metadata_after_all_sends_started` at the C3
scenario: the batch carrying `send_trailing_metadata` exists and afterwards
all cached sends have been started. -/
theorem send_trailing_metadata_after_all_sends_started_witness :
    (start_retriable_subchannel_batches DEFAULT_PER_RPC_RETRY_BUFFER_SIZE
        c3_calld c3_rs).2.2.started_send_message_count =
      (start_retriable_subchannel_batches DEFAULT_PER_RPC_RETRY_BUFFER_SIZE
        c3_calld c3_rs).2.1.num_send_message_ops :=
  send_trailing_metadata_after_all_sends_started
    DEFAULT_PER_RPC_RETRY_BUFFER_SIZE c3_calld c3_rs
    { send_initial_metadata := true
      send_message_index := some 0
      send_trailing_metadata := true
      recv_initial_metadata := false
      recv_message := false
      recv_trailing_metadata := false }
    (by decide) rfl

/-- `grpc_lb_subchannel_data` from `subchannel_list.h` as used by
`round_robin.cc`: the current connectivity state, the connected-subchannel
ref (abstracted to an id, `none` for `NULL`) and the per-address user
data (abstracted to a number). -/
structure SubchannelData where
  curr_connectivity_state : ConnectivityState
  connected_subchannel : Option Nat
  user_data : Nat
deriving DecidableEq, Repr

instance : Inhabited SubchannelData :=
  ⟨⟨ConnectivityState.idle, none, 0⟩⟩

/-- The pick record (`grpc_lb_policy_pick_state`) restricted to what
`RoundRobin::PickLocked` touches: whether the caller supplied a
`user_data` output slot, and the two outputs. -/
structure RRPick where
  has_user_data_slot : Bool
  connected_subchannel : Option Nat
  user_data : Option Nat
deriving DecidableEq, Repr, Inhabited

/-- An address from `GRPC_ARG_LB_ADDRESSES`. -/
structure LbAddress where
  is_balancer : Bool
  user_data : Nat
deriving DecidableEq, Repr, Inhabited

/-- The state of the `RoundRobin` policy from `round_robin.cc`:
`subchannel_list_`, `latest_pending_subchannel_list_`,
`started_picking_`, `pending_picks_`, `last_ready_subchannel_index_`, and
the current state of its connectivity tracker `state_tracker_`. -/
structure RRState where
  subchannel_list : Option (List SubchannelData)
  latest_pending_subchannel_list : Option (List SubchannelData)
  started_picking : Bool
  pending_picks : List RRPick
  last_ready_subchannel_index : Nat
  connectivity : ConnectivityState
deriving DecidableEq, Repr, Inhabited

/-- Modelled from the spec (section 4.1): `grpc_connectivity_state_set` on a
tracker updates the current state; `SHUTDOWN` is absorbing ("the tracker
refuses to move off SHUTDOWN").  The implementation lives in
`connectivity_state.c`, which is not among the sources here. -/
def grpc_connectivity_state_set (cur new : ConnectivityState) :
    ConnectivityState :=
  if cur = ConnectivityState.shutdown then cur else new

/-- Modelled from the spec (section 4.5): `grpc_lb_subchannel_list_create`
(in `subchannel_list.cc`, not among the sources here) "builds a fresh
subchannel list from the new addresses" - one subchannel per address, with
no connectivity observed yet (IDLE) and the address's user data. -/
def grpc_lb_subchannel_list_create (addresses : List LbAddress) :
    List SubchannelData :=
  addresses.map fun a =>
    { curr_connectivity_state := ConnectivityState.idle
      connected_subchannel := none
      user_data := a.user_data }

/-- The scan loop of `RoundRobin::GetNextReadySubchannelIndexLocked`
(`round_robin.cc` lines 146-170), with the loop counter values passed as a
list: for each `i`, probe index `(i + last_ready_subchannel_index + 1) %
num_subchannels` and return it if that subchannel is READY. -/
def rrFindFrom (l : List SubchannelData) (last : Nat) : List Nat → Nat
  | [] => l.length
  | i :: rest =>
    let index := (i + last + 1) % l.length
    if (l.getD index default).curr_connectivity_state = ConnectivityState.ready
    then index
    else rrFindFrom l last rest

/-- `RoundRobin::GetNextReadySubchannelIndexLocked` from `round_robin.cc`
(lines 137-175): the index of the next READY subchannel starting after the
last pick, or `num_subchannels` if none is READY. -/
def GetNextReadySubchannelIndexLocked (l : List SubchannelData)
    (last : Nat) : Nat :=
  rrFindFrom l last (List.range l.length)

/-- `RoundRobin::StartPickingLocked` (`round_robin.cc` lines 283-293); the
connectivity watches it establishes are external to this model. -/
def StartPickingLocked (p : RRState) : RRState :=
  { p with started_picking := true }

/-- The shared tail of `RoundRobin::PickLocked` (lines 330-336): queue the
pick on `pending_picks_` (starting to pick if not yet) and return Pending. -/
def rrQueuePick (p : RRState) (pick : RRPick) : Bool × RRState × RRPick :=
  let p := if !p.started_picking then StartPickingLocked p else p
  (false, { p with pending_picks := pick :: p.pending_picks }, pick)

/-- `RoundRobin::PickLocked` from `round_robin.cc` (lines 301-337). -/
def PickLocked (p : RRState) (pick : RRPick) : Bool × RRState × RRPick :=
  match p.subchannel_list with
  | some l =>
    let next_ready_index :=
      GetNextReadySubchannelIndexLocked l p.last_ready_subchannel_index
    if next_ready_index < l.length then
      let sd := l.getD next_ready_index default
      let pick := { pick with
        connected_subchannel := sd.connected_subchannel,
        user_data :=
          if pick.has_user_data_slot then some sd.user_data else pick.user_data }
      (true, { p with last_ready_subchannel_index := next_ready_index }, pick)
    else rrQueuePick p pick
  | none => rrQueuePick p pick

/-- `RoundRobin::UpdateLocked` from `round_robin.cc` (lines 565-631).  The
`grpc_lb_subchannel_list_shutdown_and_unref` calls on replaced lists and
the connectivity watches on new subchannels are external to this model. -/
def UpdateLocked (p : RRState) (addresses : Option (List LbAddress)) :
    RRState :=
  match addresses with
  | none =>
    if p.subchannel_list = none then
      { p with connectivity := (grpc_connectivity_state_set p.connectivity
          ConnectivityState.transientFailure) }
    else p
  | some addrs =>
    let subchannel_list := grpc_lb_subchannel_list_create addrs
    if subchannel_list.length = 0 then
      { p with
        connectivity := (grpc_connectivity_state_set p.connectivity
          ConnectivityState.transientFailure),
        subchannel_list := some subchannel_list }
    else if p.started_picking then
      { p with latest_pending_subchannel_list := some subchannel_list }
    else
      { p with subchannel_list := some subchannel_list }

theorem rrFindFrom_of_none (l : List SubchannelData) (last : Nat)
    (is : List Nat)
    (h : ∀ i ∈ is, (l.getD ((i + last + 1) % l.length)
      default).curr_connectivity_state ≠ ConnectivityState.ready) :
    rrFindFrom l last is = l.length := by
  induction is with
  | nil => rfl
  | cons i rest ih =>
    unfold rrFindFrom
    rw [if_neg (h i (List.mem_cons_self i rest))]
    exact ih fun j hj => h j (List.mem_cons_of_mem i hj)

theorem rrFindFrom_ready_lt (l : List SubchannelData) (idx : Nat)
    (h : (l.getD idx default).curr_connectivity_state =
      ConnectivityState.ready) : 0 < l.length := by
  rcases l with _ | ⟨a, as⟩
  · simp [default] at h
  · simp

theorem rrFindFrom_cons (l : List SubchannelData) (last i : Nat)
    (rest : List Nat) :
    rrFindFrom l last (i :: rest) =
      if (l.getD ((i + last + 1) % l.length)
          default).curr_connectivity_state = ConnectivityState.ready
      then (i + last + 1) % l.length
      else rrFindFrom l last rest := rfl

theorem rrFindFrom_append (l : List SubchannelData) (last : Nat)
    (as bs : List Nat) :
    rrFindFrom l last (as ++ bs) =
      if rrFindFrom l last as < l.length then rrFindFrom l last as
      else rrFindFrom l last bs := by
  induction as with
  | nil =>
    rw [List.nil_append]
    rw [show rrFindFrom l last [] = l.length from rfl]
    rw [if_neg (Nat.lt_irrefl _)]
  | cons i rest ih =>
    rw [List.cons_append, rrFindFrom_cons, rrFindFrom_cons]
    by_cases hready : (l.getD ((i + last + 1) % l.length)
        default).curr_connectivity_state = ConnectivityState.ready
    · have hpos : 0 < l.length := rrFindFrom_ready_lt l _ hready
      have hlt : (i + last + 1) % l.length < l.length := Nat.mod_lt _ hpos
      rw [if_pos hready, if_pos hready, if_pos hlt]
    · rw [if_neg hready, if_neg hready, ih]

theorem getNextReady_first (l : List SubchannelData) (last k : Nat)
    (hk : k < l.length)
    (hready : (l.getD ((k + last + 1) % l.length)
      default).curr_connectivity_state = ConnectivityState.ready)
    (hmin : ∀ m, m < k → (l.getD ((m + last + 1) % l.length)
      default).curr_connectivity_state ≠ ConnectivityState.ready) :
    GetNextReadySubchannelIndexLocked l last = (k + last + 1) % l.length := by
  have hsplit : List.range l.length =
      List.range (k + 1) ++ (List.range (l.length - (k + 1))).map (k + 1 + ·) := by
    have h : l.length = (k + 1) + (l.length - (k + 1)) := by omega
    nth_rewrite 1 [h]
    rw [List.range_add]
  unfold GetNextReadySubchannelIndexLocked
  rw [hsplit, rrFindFrom_append]
  have hfirst : rrFindFrom l last (List.range (k + 1)) =
      (k + last + 1) % l.length := by
    rw [List.range_succ, rrFindFrom_append]
    rw [rrFindFrom_of_none l last (List.range k)
      (fun m hm => hmin m (List.mem_range.mp hm))]
    simp only [Nat.lt_irrefl, if_false]
    unfold rrFindFrom
    rw [if_pos hready]
  rw [hfirst]
  have hpos : 0 < l.length := by omega
  rw [if_pos (Nat.mod_lt _ hpos)]

theorem exists_scan_of_exists_ready (l : List SubchannelData) (last : Nat)
    (h : ∃ j, j < l.length ∧ (l.getD j default).curr_connectivity_state =
      ConnectivityState.ready) :
    ∃ m, (l.getD ((m + last + 1) % l.length)
      default).curr_connectivity_state = ConnectivityState.ready := by
  obtain ⟨j, hj, hready⟩ := h
  have hpos : 0 < l.length := by omega
  set n := l.length with hn
  set r := (last + 1) % n with hr
  have hrlt : r < n := Nat.mod_lt _ hpos
  refine ⟨(j + n - r) % n, ?_⟩
  have key : ((j + n - r) % n + last + 1) % n = j := by
    have h1 : (j + n - r) % n + last + 1 = (j + n - r) % n + (last + 1) := by
      omega
    rw [h1, Nat.add_mod, Nat.mod_mod_of_dvd _ (dvd_refl n), ← hr]
    by_cases hjr : r ≤ j
    · have h2 : (j + n - r) % n = j - r := by
        have h3 : j + n - r = (j - r) + n := by omega
        rw [h3, Nat.add_mod_right]
        exact Nat.mod_eq_of_lt (by omega)
      rw [h2]
      have h4 : j - r + r = j := by omega
      rw [h4]
      exact Nat.mod_eq_of_lt hj
    · have h2 : (j + n - r) % n = j + n - r := Nat.mod_eq_of_lt (by omega)
      rw [h2]
      have h3 : j + n - r + r = j + n := by omega
      rw [h3, Nat.add_mod_right]
      exact Nat.mod_eq_of_lt hj
  rw [key]
  exact hready

/-- C4: `RoundRobin::PickLocked` over a current subchannel list `l`.  If
some subchannel is READY, the first READY subchannel in scan order from
`(last_ready_subchannel_index + 1) mod N` is selected: its
connected-subchannel ref and (when a slot was supplied) its user data are
written to the pick, `last_ready_subchannel_index` advances to its index
and the pick returns Done (`true`).  If no subchannel is READY, the pick is
queued на the pending-picks list and Pending (`false`) is returned. -/
theorem rr_pick_locked_spec (p : RRState) (pick : RRPick)
    (l : List SubchannelData) (hl : p.subchannel_list = some l) :
    ((∃ j, j < l.length ∧ (l.getD j default).curr_connectivity_state =
        ConnectivityState.ready) →
      ∃ k, k < l.length ∧
        (∀ m, m < k →
          (l.getD ((m + p.last_ready_subchannel_index + 1) % l.length)
            default).curr_connectivity_state ≠ ConnectivityState.ready) ∧
        (l.getD ((k + p.last_ready_subchannel_index + 1) % l.length)
          default).curr_connectivity_state = ConnectivityState.ready ∧
        PickLocked p pick =
          (true,
           { p with last_ready_subchannel_index :=
              (k + p.last_ready_subchannel_index + 1) % l.length },
           { pick with
              connected_subchannel :=
                (l.getD ((k + p.last_ready_subchannel_index + 1) % l.length)
                  default).connected_subchannel,
              user_data :=
                if pick.has_user_data_slot then
                  some ((l.getD
                    ((k + p.last_ready_subchannel_index + 1) % l.length)
                    default).user_data)
                else pick.user_data })) ∧
    ((∀ j, j < l.length → (l.getD j default).curr_connectivity_state ≠
        ConnectivityState.ready) →
      PickLocked p pick =
        (false,
         { p with started_picking := true,
                  pending_picks := pick :: p.pending_picks },
         pick)) := by
  constructor
  · intro hex
    have hpos : 0 < l.length := by
      obtain ⟨j, hj, _⟩ := hex
      omega
    obtain ⟨m0, hm0⟩ :=
      exists_scan_of_exists_ready l p.last_ready_subchannel_index hex
    have hex2 : ∃ m,
        (l.getD ((m + p.last_ready_subchannel_index + 1) % l.length)
          default).curr_connectivity_state = ConnectivityState.ready :=
      ⟨m0, hm0⟩
    have hfind := Nat.find_spec hex2
    have hklt : Nat.find hex2 < l.length := by
      by_contra hge
      push_neg at hge
      have hlt : m0 % l.length < Nat.find hex2 :=
        lt_of_lt_of_le (Nat.mod_lt _ hpos) hge
      apply Nat.find_min hex2 hlt
      have heq :
          (m0 % l.length + p.last_ready_subchannel_index + 1) % l.length =
          (m0 + p.last_ready_subchannel_index + 1) % l.length := by
        conv_lhs => rw [Nat.add_assoc]
        conv_rhs => rw [Nat.add_assoc]
        rw [Nat.add_mod, Nat.mod_mod_of_dvd _ (dvd_refl l.length),
          ← Nat.add_mod]
      rw [heq]
      exact hm0
    refine ⟨Nat.find hex2, hklt,
      fun m hm => Nat.find_min hex2 hm, hfind, ?_⟩
    have hnext := getNextReady_first l p.last_ready_subchannel_index
      (Nat.find hex2) hklt hfind (fun m hm => Nat.find_min hex2 hm)
    unfold PickLocked
    rw [hl]
    dsimp only
    rw [hnext, if_pos (Nat.mod_lt _ hpos)]
  · intro hnone
    have hnext : GetNextReadySubchannelIndexLocked l
        p.last_ready_subchannel_index = l.length := by
      unfold GetNextReadySubchannelIndexLocked
      apply rrFindFrom_of_none
      intro i hi
      rcases Nat.eq_zero_or_pos l.length with h0 | hpos
      · rw [List.mem_range, h0] at hi
        omega
      · exact hnone _ (Nat.mod_lt _ hpos)
    unfold PickLocked
    rw [hl]
    dsimp only
    rw [hnext, if_neg (Nat.lt_irrefl _)]
    unfold rrQueuePick StartPickingLocked
    cases hsp : p.started_picking
    · simp [hl]
    · rcases p with ⟨f1, f2, f3, f4, f5, f6⟩
      simp_all

/-- The subchannel list used by the C4 witness: index 0 IDLE, index 1 READY. -/
def c4_list : List SubchannelData :=
  [⟨ConnectivityState.idle, none, 0⟩, ⟨ConnectivityState.ready, some 7, 42⟩]

/-- Round-robin policy state for the C4 witness. -/
def c4_p : RRState :=
  { subchannel_list := some c4_list
    latest_pending_subchannel_list := none
    started_picking := true
    pending_picks := []
    last_ready_subchannel_index := 0
    connectivity := ConnectivityState.ready }

/-- The pick used by the C4 witness. -/
def c4_pick : RRPick := ⟨true, none, none⟩

/-- Witness for `rr_pick_locked_spec`: with subchannel 1 READY the pick
completes synchronously. -/
theorem rr_pick_locked_spec_witness : (PickLocked c4_p c4_pick).1 = true := by
  obtain ⟨k, hk, hmin, hready, heq⟩ :=
    (rr_pick_locked_spec c4_p c4_pick c4_list rfl).1 ⟨1, by decide, by decide⟩
  rw [heq]

/-- Round-robin policy state for the C5 scenario: a current one-subchannel
list, READY. -/
def c5_p : RRState :=
  { subchannel_list := some [⟨ConnectivityState.ready, some 3, 0⟩]
    latest_pending_subchannel_list := none
    started_picking := true
    pending_picks := []
    last_ready_subchannel_index := 0
    connectivity := ConnectivityState.ready }

/-- C5 counterexample: an update whose address set is empty, received while
a current subchannel list exists, is NOT ignored: `UpdateLocked` moves the
policy to TRANSIENT_FAILURE and replaces the current list with the empty
one (shutting the old list down), contradicting the claim that the current
list and the connectivity state are left unchanged. -/
theorem rr_update_empty_claim_counterexample :
    c5_p.subchannel_list = some [⟨ConnectivityState.ready, some 3, 0⟩] ∧
    (UpdateLocked c5_p (some [])).connectivity =
      ConnectivityState.transientFailure ∧
    (UpdateLocked c5_p (some [])).subchannel_list = some [] ∧
    UpdateLocked c5_p (some []) ≠ c5_p := by
  refine ⟨rfl, rfl, rfl, ?_⟩
  decide

/-- C5 (amended): an update that carries no addresses argument at all is
ignored when a current subchannel list exists, and moves the policy to
TRANSIENT_FAILURE when none exists; an update whose address set yields an
empty subchannel list always moves the policy to TRANSIENT_FAILURE and
installs the empty list as the current list, whether or not a current list
exists. -/
theorem rr_update_locked_empty_spec (p : RRState) :
    (p.subchannel_list ≠ none → UpdateLocked p none = p) ∧
    (p.subchannel_list = none →
      UpdateLocked p none =
        { p with connectivity := (grpc_connectivity_state_set p.connectivity
            ConnectivityState.transientFailure) }) ∧
    (∀ addrs : List LbAddress, grpc_lb_subchannel_list_create addrs = [] →
      UpdateLocked p (some addrs) =
        { p with
          connectivity := (grpc_connectivity_state_set p.connectivity
            ConnectivityState.transientFailure),
          subchannel_list := some [] }) := by
  refine ⟨?_, ?_, ?_⟩
  · intro h
    unfold UpdateLocked
    rw [if_neg h]
  · intro h
    unfold UpdateLocked
    rw [if_pos h]
  · intro addrs h
    unfold UpdateLocked
    dsimp only
    rw [h]
    rfl

/-- Witness for `rr_update_locked_empty_spec` at the C5 state: the empty
update installs the empty list and publishes TRANSIENT_FAILURE. -/
theorem rr_update_locked_empty_spec_witness :
    UpdateLocked c5_p (some []) =
      { c5_p with
        connectivity := ConnectivityState.transientFailure,
        subchannel_list := some [] } :=
  (rr_update_locked_empty_spec c5_p).2.2 [] rfl

/-- `grpc_grpclb_server` restricted to what
`GrpcLb::PickFromInternalRRLocked` reads: the `drop` flag and the
load-balance token. -/
structure ServerEntry where
  drop : Bool
  load_balance_token : String
deriving DecidableEq, Repr

instance : Inhabited ServerEntry := ⟨⟨false, ""⟩⟩

/-- Modelled from the spec (section 4.6): the client-stats accumulator's
per-token drop counts (`grpc_grpclb_client_stats`, whose implementation is
not among the sources here), represented as the multiset of tokens of
dropped calls. -/
def ClientStats : Type := List String

instance : DecidableEq ClientStats := by
  unfold ClientStats
  infer_instance

instance : Repr ClientStats := by
  unfold ClientStats
  infer_instance

/-- Modelled from the spec:
`grpc_grpclb_client_stats_add_call_dropped_locked` adds one drop for the
given load-balance token. -/
def add_call_dropped (token : String) (stats : ClientStats) : ClientStats :=
  (token :: stats : List String)

/-- The number of drops recorded for one token. -/
def drops_for (stats : ClientStats) (token : String) : Nat :=
  (stats : List String).count token

/-- The grpclb state read and written by
`GrpcLb::PickFromInternalRRLocked`: the current balancer server list (with
the pick index into it) and the client stats of the current balancer call.
`lb_calld_client_stats = none` models `lb_calld_ == nullptr ||
lb_calld_->client_stats() == nullptr`. -/
structure GrpcLbState where
  serverlist : Option (List ServerEntry)
  serverlist_index : Nat
  lb_calld_client_stats : Option ClientStats
deriving DecidableEq, Repr

/-- Outcome of one `GrpcLb::PickFromInternalRRLocked` call: the returned
`pick_done` flag, the updated state, whether the inner round-robin policy
was consulted (`rr_policy_->PickLocked`), whether the pick completed as a
drop, and the pick's connected-subchannel output. -/
structure GrpcLbPickResult where
  pick_done : Bool
  st : GrpcLbState
  consulted_rr : Bool
  completed_as_drop : Bool
  pick_connected_subchannel : Option Nat
deriving DecidableEq, Repr

/-- The delegation tail of `GrpcLb::PickFromInternalRRLocked` (lines
1257-1277 of `grpclb.cc`): take a client-stats ref for the pick, delegate
to the inner round-robin, and on a synchronous pick set metadata/context
(force-async reschedules the completion and reports Pending).  The inner
round-robin call is external here; its outcome is the oracle inputs
`rr_pick_done` and `rr_chosen`. -/
def grpclb_delegate_to_rr (st : GrpcLbState) (force_async : Bool)
    (pick_connected_subchannel : Option Nat) (rr_pick_done : Bool)
    (rr_chosen : Option Nat) : GrpcLbPickResult :=
  if rr_pick_done then
    { pick_done := if force_async then false else true
      st := st
      consulted_rr := true
      completed_as_drop := false
      pick_connected_subchannel := rr_chosen }
  else
    { pick_done := false
      st := st
      consulted_rr := true
      completed_as_drop := false
      pick_connected_subchannel := pick_connected_subchannel }

/-- `GrpcLb::PickFromInternalRRLocked` from `grpclb.cc` (lines 1230-1278).
While a server list is current, the entry at `serverlist_index_` is
consulted (and the index advanced, wrapping at the end); a `drop` entry
completes the pick as a drop, incrementing that token's drop count on the
client stats when a balancer call with stats is active, without consulting
the inner round-robin.  Otherwise the pick is delegated to the inner
round-robin. -/
def PickFromInternalRRLocked (st : GrpcLbState) (force_async : Bool)
    (pick_connected_subchannel : Option Nat) (rr_pick_done : Bool)
    (rr_chosen : Option Nat) : GrpcLbPickResult :=
  match hsl : st.serverlist with
  | some sl =>
    let server := sl.getD st.serverlist_index default
    let idx := st.serverlist_index + 1
    let idx := if idx = sl.length then 0 else idx
    let st := { st with serverlist_index := idx }
    if server.drop then
      let st := { st with lb_calld_client_stats :=
        match st.lb_calld_client_stats with
        | some stats => some (add_call_dropped server.load_balance_token stats)
        | none => none }
      if force_async then
        { pick_done := false, st := st, consulted_rr := false,
          completed_as_drop := true,
          pick_connected_subchannel := pick_connected_subchannel }
      else
        { pick_done := true, st := st, consulted_rr := false,
          completed_as_drop := true,
          pick_connected_subchannel := pick_connected_subchannel }
    else
      grpclb_delegate_to_rr st force_async pick_connected_subchannel
        rr_pick_done rr_chosen
  | none =>
    grpclb_delegate_to_rr st force_async pick_connected_subchannel
      rr_pick_done rr_chosen

/-- C6: for a pick made while a balancer server list is current (with an
active balancer call carrying client stats): if the entry at the current
index is a drop, the pick completes as a drop (its connected-subchannel
output is left `none`, the inner round-robin is not consulted) and that
entry's token's drop count is incremented by exactly one (all other tokens
unchanged); otherwise the pick is delegated to the inner round-robin.  In
both cases the index advances by one, wrapping at the end of the list. -/
theorem grpclb_pick_drop_spec (st : GrpcLbState) (force_async : Bool)
    (rr_pick_done : Bool) (rr_chosen : Option Nat) (sl : List ServerEntry)
    (stats : ClientStats) (hsl : st.serverlist = some sl)
    (hidx : st.serverlist_index < sl.length)
    (hstats : st.lb_calld_client_stats = some stats) :
    ((sl.getD st.serverlist_index default).drop = true →
      (PickFromInternalRRLocked st force_async none rr_pick_done
        rr_chosen).consulted_rr = false ∧
      (PickFromInternalRRLocked st force_async none rr_pick_done
        rr_chosen).completed_as_drop = true ∧
      (PickFromInternalRRLocked st force_async none rr_pick_done
        rr_chosen).pick_connected_subchannel = none ∧
      (PickFromInternalRRLocked st force_async none rr_pick_done
        rr_chosen).pick_done = (if force_async then false else true) ∧
      (PickFromInternalRRLocked st force_async none rr_pick_done
        rr_chosen).st.lb_calld_client_stats =
        some (add_call_dropped
          (sl.getD st.serverlist_index default).load_balance_token stats) ∧
      drops_for (add_call_dropped
          (sl.getD st.serverlist_index default).load_balance_token stats)
          (sl.getD st.serverlist_index default).load_balance_token =
        drops_for stats
          (sl.getD st.serverlist_index default).load_balance_token + 1 ∧
      (∀ t, t ≠ (sl.getD st.serverlist_index default).load_balance_token →
        drops_for (add_call_dropped
          (sl.getD st.serverlist_index default).load_balance_token stats) t =
          drops_for stats t)) ∧
    ((sl.getD st.serverlist_index default).drop = false →
      (PickFromInternalRRLocked st force_async none rr_pick_done
        rr_chosen).consulted_rr = true ∧
      (PickFromInternalRRLocked st force_async none rr_pick_done
        rr_chosen).completed_as_drop = false ∧
      (PickFromInternalRRLocked st force_async none rr_pick_done
        rr_chosen).st.lb_calld_client_stats = some stats) ∧
    (PickFromInternalRRLocked st force_async none rr_pick_done
      rr_chosen).st.serverlist_index =
        (st.serverlist_index + 1) % sl.length := by
  have hwrap : (if st.serverlist_index + 1 = sl.length then 0
      else st.serverlist_index + 1) = (st.serverlist_index + 1) % sl.length := by
    split_ifs with h
    · rw [h, Nat.mod_self]
    · exact (Nat.mod_eq_of_lt (by omega)).symm
  unfold PickFromInternalRRLocked
  split
  case _ sl2 hsl2 =>
    rw [hsl] at hsl2
    injection hsl2 with hsl2
    subst hsl2
    dsimp only
    refine ⟨?_, ?_, ?_⟩
    · intro hdrop
      rw [if_pos hdrop, hstats]
      cases force_async <;>
        simp_all [drops_for, add_call_dropped, List.count_cons]
    · intro hdrop
      rw [if_neg (by rw [hdrop]; simp)]
      unfold grpclb_delegate_to_rr
      split_ifs <;> exact ⟨rfl, rfl, hstats⟩
    · rw [← hwrap]
      by_cases hdrop : (sl.getD st.serverlist_index default).drop = true
      · rw [if_pos hdrop]
        split_ifs <;> rfl
      · rw [if_neg hdrop]
        unfold grpclb_delegate_to_rr
        split_ifs <;> rfl
  case _ hsl2 =>
    rw [hsl] at hsl2
    exact Option.noConfusion hsl2

/-- grpclb state for the C6 witness: a two-entry server list whose first
entry is a drop with token "t1", pick index 0, stats present and empty. -/
def c6_st : GrpcLbState :=
  { serverlist := some [⟨true, "t1"⟩, ⟨false, "t2"⟩]
    serverlist_index := 0
    lb_calld_client_stats := some ([] : List String) }

/-- Witness for `grpclb_pick_drop_spec` at `c6_st`: the drop entry
completes the pick without the round robin, records one "t1" drop and
advances the index to 1. -/
theorem grpclb_pick_drop_spec_witness :
    (PickFromInternalRRLocked c6_st false none true
      (some 5)).consulted_rr = false ∧
    (PickFromInternalRRLocked c6_st false none true
      (some 5)).st.lb_calld_client_stats =
        some (add_call_dropped "t1" ([] : List String)) ∧
    (PickFromInternalRRLocked c6_st false none true
      (some 5)).st.serverlist_index = 1 := by
  have h := grpclb_pick_drop_spec c6_st false true (some 5)
    [⟨true, "t1"⟩, ⟨false, "t2"⟩] ([] : List String) rfl (by decide) rfl
  have hd := h.1 (by rfl)
  refine ⟨hd.1, ?_, ?_⟩
  · have := hd.2.2.2.2.1
    simpa using this
  · have := h.2.2
    simpa using this

/-- `BackOff::Options` as configured by the `HealthCheckClient`
constructor: initial and max back-off in milliseconds, multiplier and
jitter as exact rationals (the C++ doubles 1.6 and 0.2 are decimal
literals, represented exactly here). -/
structure BackoffOptions where
  initial_backoff : Nat
  multiplier : Rat
  jitter : Rat
  max_backoff : Nat
deriving DecidableEq, Repr

/-- The back-off options built in the `HealthCheckClient` constructor
(`health_check_client.cc` lines 50-57) from the constants on lines 32-35:
initial 1s, multiplier 1.6, jitter 0.2, max 120s. -/
def health_check_backoff_options : BackoffOptions :=
  { initial_backoff := 1 * 1000
    multiplier := 1.6
    jitter := 0.2
    max_backoff := 120 * 1000 }

/-- Externally visible actions of the health-check client: arming the
retry timer (`grpc_timer_init` in `StartRetryTimer`, with the back-off
options its deadline is computed from), resetting the back-off
(`retry_backoff_.Reset()`), and starting a new health-watch call. -/
inductive HealthEvent where
  | timer_armed (opts : BackoffOptions)
  | backoff_reset
  | call_started
deriving DecidableEq, Repr

/-- The `HealthCheckClient` state: the published health state (`state_`),
`shutting_down_`, whether a `CallState` is attached (`call_state_ !=
nullptr`) and `retry_timer_callback_pending_`. -/
structure HCCState where
  health_state : ConnectivityState
  shutting_down : Bool
  has_call : Bool
  retry_timer_pending : Bool
deriving DecidableEq, Repr

/-- `HealthCheckClient::SetHealthStatusLocked` (`health_check_client.cc`
lines 79-85); notifying the watcher is external to this model. -/
def SetHealthStatusLocked (st : HCCState) (s : ConnectivityState) :
    HCCState :=
  { st with health_state := s }

/-- `HealthCheckClient::StartCallLocked` (`health_check_client.cc` lines
109-123): no-op when shutting down, else publish CONNECTING and start a
new call. -/
def StartCallLocked (st : HCCState) : HCCState × List HealthEvent :=
  if st.shutting_down then (st, [])
  else
    let st := SetHealthStatusLocked st ConnectivityState.connecting
    ({ st with has_call := true }, [HealthEvent.call_started])

/-- `HealthCheckClient::StartRetryTimer` (`health_check_client.cc` lines
125-149): publish TRANSIENT_FAILURE and arm the retry timer at the
back-off's next attempt time. -/
def StartRetryTimer (st : HCCState) : HCCState × List HealthEvent :=
  let st := SetHealthStatusLocked st ConnectivityState.transientFailure
  ({ st with retry_timer_pending := true },
   [HealthEvent.timer_armed health_check_backoff_options])

/-- `HealthCheckClient::OnRetryTimer` (`health_check_client.cc` lines
151-169): on expiry (no cancellation error), restart the call if not shut
down and no call is attached. -/
def OnRetryTimer (st : HCCState) (error_is_none : Bool) :
    HCCState × List HealthEvent :=
  let st := { st with retry_timer_pending := false }
  if !st.shutting_down && error_is_none && !st.has_call then
    StartCallLocked st
  else (st, [])

/-- `HealthCheckClient::CallState::CallEnded` (`health_check_client.cc`
lines 504-525).  `is_current_call` models `this ==
health_check_client_->call_state_.get()` and `seen_response` the
`seen_response_` atomic of the ending call. -/
def CallEnded (st : HCCState) (is_current_call seen_response retry : Bool) :
    HCCState × List HealthEvent :=
  if is_current_call then
    let st := { st with has_call := false }
    if retry then
      if seen_response then
        let r := StartCallLocked st
        (r.1, HealthEvent.backoff_reset :: r.2)
      else StartRetryTimer st
    else (st, [])
  else (st, [])

/-- `HealthCheckClient::CallState::RecvTrailingMetadataReady`
(`health_check_client.cc` lines 469-495), starting from the extracted call
status: UNIMPLEMENTED publishes READY and ends the call without retry; any
other status ends the call with retry. -/
def RecvTrailingMetadataReady (st : HCCState) (status : GrpcStatus)
    (is_current_call seen_response : Bool) : HCCState × List HealthEvent :=
  if status = GrpcStatus.unimplemented then
    let st := SetHealthStatusLocked st ConnectivityState.ready
    CallEnded st is_current_call seen_response false
  else
    CallEnded st is_current_call seen_response true

/-- Health-client state for the C7 scenario: READY, a current call, not
shutting down. -/
def c7_st : HCCState :=
  { health_state := ConnectivityState.ready
    shutting_down := false
    has_call := true
    retry_timer_pending := false }

/-- C7 counterexample: a non-UNIMPLEMENTED termination (UNAVAILABLE) of a
call that had already seen a response does NOT publish TRANSIENT_FAILURE
and does NOT arm the back-off timer: the client resets the back-off and
restarts the call immediately, publishing CONNECTING. -/
theorem health_restart_claim_counterexample :
    RecvTrailingMetadataReady c7_st GrpcStatus.unavailable true true =
      ({ health_state := ConnectivityState.connecting
         shutting_down := false
         has_call := true
         retry_timer_pending := false },
       [HealthEvent.backoff_reset, HealthEvent.call_started]) := by
  decide

/-- C7 (amended): when the health-check call terminates with status
UNIMPLEMENTED, the client publishes READY and does not restart the call or
arm a timer.  For any other termination of the current call: if a response
had been seen on the call, the back-off is reset and the call restarts
immediately (publishing CONNECTING); if no response had been seen, the
client publishes TRANSIENT_FAILURE and arms the back-off timer
{initial 1s, multiplier 1.6, jitter 0.2, max 120s}; when that timer
expires (and the client is not shut down and has no call), the call is
restarted. -/
theorem health_call_termination_spec (st : HCCState) (status : GrpcStatus)
    (seen_response : Bool) (hshut : st.shutting_down = false) :
    (status = GrpcStatus.unimplemented →
      RecvTrailingMetadataReady st status true seen_response =
        ({ st with health_state := ConnectivityState.ready,
                   has_call := false }, [])) ∧
    (status ≠ GrpcStatus.unimplemented → seen_response = true →
      RecvTrailingMetadataReady st status true seen_response =
        ({ st with health_state := ConnectivityState.connecting,
                   has_call := true },
         [HealthEvent.backoff_reset, HealthEvent.call_started])) ∧
    (status ≠ GrpcStatus.unimplemented → seen_response = false →
      RecvTrailingMetadataReady st status true seen_response =
        ({ st with health_state := ConnectivityState.transientFailure,
                   has_call := false,
                   retry_timer_pending := true },
         [HealthEvent.timer_armed
           { initial_backoff := 1000, multiplier := 1.6, jitter := 0.2,
             max_backoff := 120000 }])) ∧
    (∀ st2 : HCCState, st2.shutting_down = false → st2.has_call = false →
      OnRetryTimer st2 true =
        ({ st2 with health_state := ConnectivityState.connecting,
                    has_call := true,
                    retry_timer_pending := false },
         [HealthEvent.call_started])) := by
  refine ⟨?_, ?_, ?_, ?_⟩
  · intro h
    subst h
    unfold RecvTrailingMetadataReady CallEnded SetHealthStatusLocked
    simp
  · intro h hseen
    subst hseen
    unfold RecvTrailingMetadataReady CallEnded StartCallLocked
      SetHealthStatusLocked
    rw [if_neg h]
    simp [hshut]
  · intro h hseen
    subst hseen
    unfold RecvTrailingMetadataReady CallEnded StartRetryTimer
      SetHealthStatusLocked
    rw [if_neg h]
    simp [health_check_backoff_options]
  · intro st2 h2shut h2call
    unfold OnRetryTimer StartCallLocked SetHealthStatusLocked
    simp [h2shut, h2call]

/-- Witness for `health_call_termination_spec` at the C7 state with a call
that saw no response: TRANSIENT_FAILURE is published and the 1s/1.6/0.2/
120s back-off timer armed. -/
theorem health_call_termination_spec_witness :
    RecvTrailingMetadataReady c7_st GrpcStatus.unavailable true false =
      ({ health_state := ConnectivityState.transientFailure
         shutting_down := false
         has_call := false
         retry_timer_pending := true },
       [HealthEvent.timer_armed
         { initial_backoff := 1000, multiplier := 1.6, jitter := 0.2,
           max_backoff := 120000 }]) := by
  have h := (health_call_termination_spec c7_st GrpcStatus.unavailable
    false rfl).2.2.1 (by decide) rfl
  exact h

/-- The value of a decimal numeral. -/
def digitsToNat (cs : List Char) : Nat :=
  cs.foldl (fun a c => a * 10 + (c.toNat - 48)) 0

/-- Modelled from the spec: `gpr_parse_nonnegative_int` (in
`support/string.c`, not among the sources here) parses a nonnegative
decimal integer, returning -1 when the input is not a numeral. -/
def gpr_parse_nonnegative_int (cs : List Char) : Int :=
  if cs ≠ [] ∧ cs.all Char.isDigit then (digitsToNat cs : Int) else -1

/-- `gpr_parse_nonnegative_int` applied to a `String`. -/
def gpr_parse_nonnegative_int_str (s : String) : Int :=
  gpr_parse_nonnegative_int s.data

/-- A parsed JSON tree (`grpc_json`): object and array nodes carry their
children together with each child's optional key. -/
inductive JsonVal where
  | jnull
  | jtrue
  | jfalse
  | jnum (value : String)
  | jstr (value : String)
  | jarr (children : List (Option String × JsonVal))
  | jobj (children : List (Option String × JsonVal))
deriving Inhabited

/-- Modelled from the spec: `grpc_status_from_string` (declared in
`status_string.h`; its table is not among the sources here) maps a status
name onto the status code, "validated against the known status set". -/
def grpc_status_from_string (s : String) : Option GrpcStatus :=
  if s = "OK" then some GrpcStatus.ok
  else if s = "CANCELLED" then some GrpcStatus.cancelled
  else if s = "UNKNOWN" then some GrpcStatus.unknown
  else if s = "INVALID_ARGUMENT" then some GrpcStatus.invalidArgument
  else if s = "DEADLINE_EXCEEDED" then some GrpcStatus.deadlineExceeded
  else if s = "NOT_FOUND" then some GrpcStatus.notFound
  else if s = "ALREADY_EXISTS" then some GrpcStatus.alreadyExists
  else if s = "PERMISSION_DENIED" then some GrpcStatus.permissionDenied
  else if s = "UNAUTHENTICATED" then some GrpcStatus.unauthenticated
  else if s = "RESOURCE_EXHAUSTED" then some GrpcStatus.resourceExhausted
  else if s = "FAILED_PRECONDITION" then some GrpcStatus.failedPrecondition
  else if s = "ABORTED" then some GrpcStatus.aborted
  else if s = "OUT_OF_RANGE" then some GrpcStatus.outOfRange
  else if s = "UNIMPLEMENTED" then some GrpcStatus.unimplemented
  else if s = "INTERNAL" then some GrpcStatus.internal
  else if s = "UNAVAILABLE" then some GrpcStatus.unavailable
  else if s = "DATA_LOSS" then some GrpcStatus.dataLoss
  else none

/-- The `strchr(buf, '.')` split used by `parse_timeout`: the characters
before the first dot, and - when a dot occurs - those after it. -/
def split_at_first_dot : List Char → List Char × Option (List Char)
  | [] => ([], none)
  | c :: rest =>
    if c = '.' then ([], some rest)
    else
      let r := split_at_first_dot rest
      (c :: r.1, r.2)

/-- `parse_timeout()` from `client_channel.c` (lines 126-161), on the
string's characters.  The string must end in `s`; an optional fractional
part after the first dot must be a numeral of exactly 3, 6 or 9 digits
(scaled to nanoseconds), and the integral part a numeral (the seconds).
The empty string (whose C behaviour reads out of bounds) is rejected. -/
def parse_timeout_chars (cs : List Char) : Option GprTimespec :=
  match cs.getLast? with
  | none => none
  | some last =>
    if last ≠ 's' then none
    else
      let buf := cs.dropLast
      match split_at_first_dot buf with
      | (intPart, some frac) =>
        let nsecRaw := gpr_parse_nonnegative_int frac
        if nsecRaw = -1 then none
        else
          let multiplier : Option Int :=
            if frac.length = 9 then some 1
            else if frac.length = 6 then some 1000
            else if frac.length = 3 then some 1000000
            else none
          match multiplier with
          | none => none
          | some m =>
            let sec := gpr_parse_nonnegative_int intPart
            if sec = -1 then none
            else some { tv_sec := sec, tv_nsec := nsecRaw * m }
      | (intPart, none) =>
        let sec := gpr_parse_nonnegative_int intPart
        if sec = -1 then none
        else some { tv_sec := sec, tv_nsec := 0 }

/-- `parse_timeout()` applied to a JSON field: only strings parse. -/
def parse_timeout (field : JsonVal) : Option GprTimespec :=
  match field with
  | JsonVal.jstr s => parse_timeout_chars s.data
  | _ => none

/-- `parse_wait_for_ready()` from `client_channel.c` (lines 116-124). -/
def parse_wait_for_ready (field : JsonVal) : Option WaitForReadyValue :=
  match field with
  | JsonVal.jtrue => some WaitForReadyValue.wfrTrue
  | JsonVal.jfalse => some WaitForReadyValue.wfrFalse
  | _ => none

/-- The element loop of the `retryableStatusCodes` branch of
`parse_retry_policy` (lines 192-206 of `client_channel.c`): every element
must be a string naming a known status. -/
def parse_retryable_status_codes
    (elements : List (Option String × JsonVal)) (codes : List GrpcStatus) :
    Option (List GrpcStatus) :=
  match elements with
  | [] => some codes
  | (_, v) :: rest =>
    match v with
    | JsonVal.jstr s =>
      match grpc_status_from_string s with
      | some c => parse_retryable_status_codes rest (codes ++ [c])
      | none => none
    | _ => none

/-- The field loop of `parse_retry_policy()` (lines 166-208 of
`client_channel.c`).  Each recognised field rejects duplicates (a `0` or
`NULL` value is the "unset" sentinel) and must parse as a positive number
(resp. an array of known status names); unrecognised keys - including
`backoffMultiplier`, for which no branch exists - are skipped.  An empty
`retryableStatusCodes` array leaves the pointer `NULL` (`none`), as in the
C loop. -/
def parse_retry_policy_fields (fields : List (Option String × JsonVal))
    (rp : RetryPolicyParams) : Option RetryPolicyParams :=
  match fields with
  | [] => some rp
  | (key?, v) :: rest =>
    match key? with
    | none => none
    | some key =>
      if key = "maxRetryAttempts" then
        if rp.max_retry_attempts ≠ 0 then none
        else match v with
          | JsonVal.jnum s =>
            let n := gpr_parse_nonnegative_int_str s
            if n ≤ 0 then none
            else parse_retry_policy_fields rest { rp with max_retry_attempts := n }
          | _ => none
      else if key = "initialBackoffMs" then
        if rp.initial_backoff_ms ≠ 0 then none
        else match v with
          | JsonVal.jnum s =>
            let n := gpr_parse_nonnegative_int_str s
            if n ≤ 0 then none
            else parse_retry_policy_fields rest { rp with initial_backoff_ms := n }
          | _ => none
      else if key = "maxBackoffMs" then
        if rp.max_backoff_ms ≠ 0 then none
        else match v with
          | JsonVal.jnum s =>
            let n := gpr_parse_nonnegative_int_str s
            if n ≤ 0 then none
            else parse_retry_policy_fields rest { rp with max_backoff_ms := n }
          | _ => none
      else if key = "retryableStatusCodes" then
        if rp.retryable_status_codes ≠ none then none
        else match v with
          | JsonVal.jarr elems =>
            match parse_retryable_status_codes elems [] with
            | some codes =>
              parse_retry_policy_fields rest
                { rp with retryable_status_codes :=
                    if codes = [] then none else some codes }
            | none => none
          | _ => none
      else parse_retry_policy_fields rest rp

/-- `parse_retry_policy()` from `client_channel.c` (lines 163-210): the
field must be an object; its fields are folded over a zero-initialised
`retry_policy_params`. -/
def parse_retry_policy (field : JsonVal) : Option RetryPolicyParams :=
  match field with
  | JsonVal.jobj fields => parse_retry_policy_fields fields ⟨0, 0, 0, 0, none⟩
  | _ => none

/-- The field loop of `method_parameters_create_from_json()` (lines
216-230 of `client_channel.c`): `waitForReady`, `timeout` and
`retryPolicy` are each parsed at most once (`goto error` on duplicates or
parse failures); fields with a `NULL` key, and unknown keys, are skipped. -/
def method_params_fields (fields : List (Option String × JsonVal))
    (wait_for_ready : WaitForReadyValue) (timeout : GprTimespec)
    (retry_policy : Option RetryPolicyParams) : Option MethodParameters :=
  match fields with
  | [] => some { timeout := timeout, wait_for_ready := wait_for_ready,
                 retry_policy := retry_policy }
  | (key?, v) :: rest =>
    match key? with
    | none => method_params_fields rest wait_for_ready timeout retry_policy
    | some key =>
      if key = "waitForReady" then
        if wait_for_ready ≠ WaitForReadyValue.unset then none
        else match parse_wait_for_ready v with
          | some w => method_params_fields rest w timeout retry_policy
          | none => none
      else if key = "timeout" then
        if timeout.tv_sec > 0 ∨ timeout.tv_nsec > 0 then none
        else match parse_timeout v with
          | some t => method_params_fields rest wait_for_ready t retry_policy
          | none => none
      else if key = "retryPolicy" then
        if retry_policy ≠ none then none
        else match parse_retry_policy v with
          | some rp =>
            method_params_fields rest wait_for_ready timeout (some rp)
          | none => none
      else method_params_fields rest wait_for_ready timeout retry_policy

/-- `method_parameters_create_from_json()` from `client_channel.c` (lines
212-241): iterate the json node's children over zeroed accumulators.  (The
C function iterates `json->child` whatever the node's type; only object
and array nodes have children.) -/
def method_parameters_create_from_json (json : JsonVal) :
    Option MethodParameters :=
  match json with
  | JsonVal.jobj fields =>
    method_params_fields fields WaitForReadyValue.unset ⟨0, 0⟩ none
  | JsonVal.jarr fields =>
    method_params_fields fields WaitForReadyValue.unset ⟨0, 0⟩ none
  | _ => some { timeout := ⟨0, 0⟩, wait_for_ready := WaitForReadyValue.unset,
                retry_policy := none }

theorem parse_retry_policy_fields_spec
    (fields : List (Option String × JsonVal)) (rp rp2 : RetryPolicyParams)
    (h : parse_retry_policy_fields fields rp = some rp2) :
    rp2.backoff_multiplier = rp.backoff_multiplier ∧
    ((∃ v, (some "maxRetryAttempts", v) ∈ fields) ∨
        0 < rp.max_retry_attempts → 0 < rp2.max_retry_attempts) ∧
    ((∃ v, (some "initialBackoffMs", v) ∈ fields) ∨
        0 < rp.initial_backoff_ms → 0 < rp2.initial_backoff_ms) ∧
    ((∃ v, (some "maxBackoffMs", v) ∈ fields) ∨
        0 < rp.max_backoff_ms → 0 < rp2.max_backoff_ms) := by
  induction fields generalizing rp with
  | nil =>
    unfold parse_retry_policy_fields at h
    injection h with h
    subst h
    refine ⟨rfl, ?_, ?_, ?_⟩ <;> rintro (⟨v, hv⟩ | hpos) <;> simp_all
  | cons f rest ih =>
    obtain ⟨key?, v0⟩ := f
    unfold parse_retry_policy_fields at h
    rcases key? with _ | key
    · exact Option.noConfusion h
    · dsimp only at h
      by_cases hk1 : key = "maxRetryAttempts"
      · subst hk1
        rw [if_pos rfl] at h
        by_cases hdup : rp.max_retry_attempts ≠ 0
        · rw [if_pos hdup] at h
          exact Option.noConfusion h
        · rw [if_neg hdup] at h
          cases v0 <;> try exact Option.noConfusion h
          next s =>
            dsimp only at h
            by_cases hle : gpr_parse_nonnegative_int_str s ≤ 0
            · rw [if_pos hle] at h
              exact Option.noConfusion h
            · rw [if_neg hle] at h
              have hih := ih _ h
              refine ⟨hih.1, ?_, ?_, ?_⟩
              · intro _
                apply hih.2.1
                right
                dsimp only
                omega
              · rintro (⟨v, hv⟩ | hpos)
                · rcases List.mem_cons.mp hv with heq | hmem
                  · simp at heq
                  · exact hih.2.2.1 (Or.inl ⟨v, hmem⟩)
                · exact hih.2.2.1 (Or.inr hpos)
              · rintro (⟨v, hv⟩ | hpos)
                · rcases List.mem_cons.mp hv with heq | hmem
                  · simp at heq
                  · exact hih.2.2.2 (Or.inl ⟨v, hmem⟩)
                · exact hih.2.2.2 (Or.inr hpos)
      · rw [if_neg hk1] at h
        by_cases hk2 : key = "initialBackoffMs"
        · subst hk2
          rw [if_pos rfl] at h
          by_cases hdup : rp.initial_backoff_ms ≠ 0
          · rw [if_pos hdup] at h
            exact Option.noConfusion h
          · rw [if_neg hdup] at h
            cases v0 <;> try exact Option.noConfusion h
            next s =>
              dsimp only at h
              by_cases hle : gpr_parse_nonnegative_int_str s ≤ 0
              · rw [if_pos hle] at h
                exact Option.noConfusion h
              · rw [if_neg hle] at h
                have hih := ih _ h
                refine ⟨hih.1, ?_, ?_, ?_⟩
                · rintro (⟨v, hv⟩ | hpos)
                  · rcases List.mem_cons.mp hv with heq | hmem
                    · simp at heq
                    · exact hih.2.1 (Or.inl ⟨v, hmem⟩)
                  · exact hih.2.1 (Or.inr hpos)
                · intro _
                  apply hih.2.2.1
                  right
                  dsimp only
                  omega
                · rintro (⟨v, hv⟩ | hpos)
                  · rcases List.mem_cons.mp hv with heq | hmem
                    · simp at heq
                    · exact hih.2.2.2 (Or.inl ⟨v, hmem⟩)
                  · exact hih.2.2.2 (Or.inr hpos)
        · rw [if_neg hk2] at h
          by_cases hk3 : key = "maxBackoffMs"
          · subst hk3
            rw [if_pos rfl] at h
            by_cases hdup : rp.max_backoff_ms ≠ 0
            · rw [if_pos hdup] at h
              exact Option.noConfusion h
            · rw [if_neg hdup] at h
              cases v0 <;> try exact Option.noConfusion h
              next s =>
                dsimp only at h
                by_cases hle : gpr_parse_nonnegative_int_str s ≤ 0
                · rw [if_pos hle] at h
                  exact Option.noConfusion h
                · rw [if_neg hle] at h
                  have hih := ih _ h
                  refine ⟨hih.1, ?_, ?_, ?_⟩
                  · rintro (⟨v, hv⟩ | hpos)
                    · rcases List.mem_cons.mp hv with heq | hmem
                      · simp at heq
                      · exact hih.2.1 (Or.inl ⟨v, hmem⟩)
                    · exact hih.2.1 (Or.inr hpos)
                  · rintro (⟨v, hv⟩ | hpos)
                    · rcases List.mem_cons.mp hv with heq | hmem
                      · simp at heq
                      · exact hih.2.2.1 (Or.inl ⟨v, hmem⟩)
                    · exact hih.2.2.1 (Or.inr hpos)
                  · intro _
                    apply hih.2.2.2
                    right
                    dsimp only
                    omega
          · rw [if_neg hk3] at h
            by_cases hk4 : key = "retryableStatusCodes"
            · subst hk4
              rw [if_pos rfl] at h
              by_cases hdup : rp.retryable_status_codes ≠ none
              · rw [if_pos hdup] at h
                exact Option.noConfusion h
              · rw [if_neg hdup] at h
                cases v0 <;> try exact Option.noConfusion h
                next elems =>
                  dsimp only at h
                  rcases hcodes : parse_retryable_status_codes elems []
                    with _ | codes
                  · rw [hcodes] at h
                    exact Option.noConfusion h
                  · rw [hcodes] at h
                    have hih := ih _ h
                    refine ⟨hih.1, ?_, ?_, ?_⟩
                    · rintro (⟨v, hv⟩ | hpos)
                      · rcases List.mem_cons.mp hv with heq | hmem
                        · simp at heq
                        · exact hih.2.1 (Or.inl ⟨v, hmem⟩)
                      · exact hih.2.1 (Or.inr hpos)
                    · rintro (⟨v, hv⟩ | hpos)
                      · rcases List.mem_cons.mp hv with heq | hmem
                        · simp at heq
                        · exact hih.2.2.1 (Or.inl ⟨v, hmem⟩)
                      · exact hih.2.2.1 (Or.inr hpos)
                    · rintro (⟨v, hv⟩ | hpos)
                      · rcases List.mem_cons.mp hv with heq | hmem
                        · simp at heq
                        · exact hih.2.2.2 (Or.inl ⟨v, hmem⟩)
                      · exact hih.2.2.2 (Or.inr hpos)
            · rw [if_neg hk4] at h
              have hih := ih _ h
              refine ⟨hih.1, ?_, ?_, ?_⟩
              · rintro (⟨v, hv⟩ | hpos)
                · rcases List.mem_cons.mp hv with heq | hmem
                  · injection heq with ha hb
                    injection ha with ha
                    exact absurd ha.symm hk1
                  · exact hih.2.1 (Or.inl ⟨v, hmem⟩)
                · exact hih.2.1 (Or.inr hpos)
              · rintro (⟨v, hv⟩ | hpos)
                · rcases List.mem_cons.mp hv with heq | hmem
                  · injection heq with ha hb
                    injection ha with ha
                    exact absurd ha.symm hk2
                  · exact hih.2.2.1 (Or.inl ⟨v, hmem⟩)
                · exact hih.2.2.1 (Or.inr hpos)
              · rintro (⟨v, hv⟩ | hpos)
                · rcases List.mem_cons.mp hv with heq | hmem
                  · injection heq with ha hb
                    injection ha with ha
                    exact absurd ha.symm hk3
                  · exact hih.2.2.2 (Or.inl ⟨v, hmem⟩)
                · exact hih.2.2.2 (Or.inr hpos)

/-- C8 counterexample: an empty `retryPolicy` object - from which all five
fields named by the claim are absent - is accepted, not rejected:
`parse_retry_policy` returns the zero-initialised policy and the method
entry parses successfully. -/
theorem retry_policy_required_fields_counterexample :
    parse_retry_policy (JsonVal.jobj []) =
      some ⟨0, 0, 0, 0, none⟩ ∧
    method_parameters_create_from_json
        (JsonVal.jobj [(some "retryPolicy", JsonVal.jobj [])]) =
      some ⟨⟨0, 0⟩, WaitForReadyValue.unset, some ⟨0, 0, 0, 0, none⟩⟩ :=
  ⟨rfl, rfl⟩

/-- C8 (amended): no `retryPolicy` field is required - absent fields keep
their zero defaults and the object is accepted.  When present,
`maxRetryAttempts`, `initialBackoffMs` and `maxBackoffMs` must parse as
positive numbers; `retryableStatusCodes` must be an array of known status
names (an unknown name rejects the object); `backoffMultiplier` is ignored
entirely (the parsed policy always has `backoff_multiplier = 0`). -/
theorem parse_retry_policy_amended :
    parse_retry_policy (JsonVal.jobj []) = some ⟨0, 0, 0, 0, none⟩ ∧
    (∀ fields rp2, parse_retry_policy (JsonVal.jobj fields) = some rp2 →
      rp2.backoff_multiplier = 0 ∧
      ((∃ v, (some "maxRetryAttempts", v) ∈ fields) →
        0 < rp2.max_retry_attempts) ∧
      ((∃ v, (some "initialBackoffMs", v) ∈ fields) →
        0 < rp2.initial_backoff_ms) ∧
      ((∃ v, (some "maxBackoffMs", v) ∈ fields) →
        0 < rp2.max_backoff_ms)) ∧
    parse_retry_policy (JsonVal.jobj
      [(some "retryableStatusCodes",
        JsonVal.jarr [(none, JsonVal.jstr "BOGUS")])]) = none ∧
    parse_retry_policy (JsonVal.jobj
      [(some "maxRetryAttempts", JsonVal.jnum "0")]) = none := by
  refine ⟨rfl, ?_, rfl, rfl⟩
  intro fields rp2 h
  unfold parse_retry_policy at h
  have hs := parse_retry_policy_fields_spec fields _ rp2 h
  exact ⟨hs.1, fun hp => hs.2.1 (Or.inl hp),
    fun hp => hs.2.2.1 (Or.inl hp), fun hp => hs.2.2.2 (Or.inl hp)⟩

/-- Witness for `parse_retry_policy_amended`: a policy with only
`maxRetryAttempts: 3` parses, and the theorem yields its positivity. -/
theorem parse_retry_policy_amended_witness :
    parse_retry_policy (JsonVal.jobj
        [(some "maxRetryAttempts", JsonVal.jnum "3")]) =
      some ⟨3, 0, 0, 0, none⟩ ∧
    (0 : Int) < (3 : Int) := by
  refine ⟨rfl, ?_⟩
  have h := (parse_retry_policy_amended.2.1
    [(some "maxRetryAttempts", JsonVal.jnum "3")] ⟨3, 0, 0, 0, none⟩
    rfl).2.1 ⟨JsonVal.jnum "3", List.mem_singleton_self _⟩
  exact h

theorem split_at_first_dot_no_dot (a : List Char) (h : '.' ∉ a) :
    split_at_first_dot a = (a, none) := by
  induction a with
  | nil => rfl
  | cons c rest ih =>
    have hc : ¬ c = '.' := by
      intro hh
      exact h (by rw [hh]; exact List.mem_cons_self _ _)
    unfold split_at_first_dot
    rw [if_neg hc, ih fun hm => h (List.mem_cons_of_mem c hm)]

theorem split_at_first_dot_dot (a b : List Char) (h : '.' ∉ a) :
    split_at_first_dot (a ++ '.' :: b) = (a, some b) := by
  induction a with
  | nil => simp [split_at_first_dot]
  | cons c rest ih =>
    have hc : ¬ c = '.' := by
      intro hh
      exact h (by rw [hh]; exact List.mem_cons_self _ _)
    rw [List.cons_append]
    unfold split_at_first_dot
    rw [if_neg hc, ih fun hm => h (List.mem_cons_of_mem c hm)]

theorem split_at_first_dot_eq_none (a pre : List Char)
    (h : split_at_first_dot a = (pre, none)) : a = pre ∧ '.' ∉ pre := by
  induction a generalizing pre with
  | nil =>
    unfold split_at_first_dot at h
    injection h with h1 h2
    subst h1
    exact ⟨rfl, by simp⟩
  | cons c rest ih =>
    unfold split_at_first_dot at h
    by_cases hc : c = '.'
    · rw [if_pos hc] at h
      injection h with h1 h2
      exact Option.noConfusion h2
    · rw [if_neg hc] at h
      dsimp only at h
      rcases hsplit : split_at_first_dot rest with ⟨p2, o2⟩
      rw [hsplit] at h
      injection h with h1 h2
      subst h1
      subst h2
      obtain ⟨hrest, hmem⟩ := ih p2 hsplit
      subst hrest
      refine ⟨rfl, ?_⟩
      intro hm
      rcases List.mem_cons.mp hm with heq | hmem2
      · exact hc heq.symm
      · exact hmem hmem2

theorem split_at_first_dot_eq_some (a pre post : List Char)
    (h : split_at_first_dot a = (pre, some post)) :
    a = pre ++ '.' :: post ∧ '.' ∉ pre := by
  induction a generalizing pre with
  | nil =>
    unfold split_at_first_dot at h
    injection h with h1 h2
    exact Option.noConfusion h2
  | cons c rest ih =>
    unfold split_at_first_dot at h
    by_cases hc : c = '.'
    · rw [if_pos hc] at h
      injection h with h1 h2
      subst h1
      injection h2 with h2
      subst h2
      subst hc
      exact ⟨rfl, by simp⟩
    · rw [if_neg hc] at h
      dsimp only at h
      rcases hsplit : split_at_first_dot rest with ⟨p2, o2⟩
      rw [hsplit] at h
      injection h with h1 h2
      subst h1
      subst h2
      obtain ⟨hrest, hmem⟩ := ih p2 hsplit
      subst hrest
      refine ⟨rfl, ?_⟩
      intro hm
      rcases List.mem_cons.mp hm with heq | hmem2
      · exact hc heq.symm
      · exact hmem hmem2

theorem takeWhile_append_of_not (p : Char → Bool) (a : List Char) (b : Char)
    (t : List Char) (ha : ∀ x ∈ a, p x = true) (hb : p b = false) :
    (a ++ b :: t).takeWhile p = a := by
  induction a with
  | nil => simp [List.takeWhile_cons, hb]
  | cons x xs ih =>
    rw [List.cons_append, List.takeWhile_cons]
    rw [ha x (List.mem_cons_self _ _)]
    rw [ih fun y hy => ha y (List.mem_cons_of_mem x hy)]
    rw [if_pos rfl]

theorem take_one_eq_singleton (l : List Char) (c : Char)
    (h : l.take 1 = [c]) : l = c :: l.drop 1 := by
  cases l with
  | nil => simp at h
  | cons x xs =>
    simp only [List.take_cons_succ, List.take_zero] at h
    injection h with h1 h2
    subst h1
    rfl

/-- The timeout strings the claim accepts: the regex
`[0-9]+(\.([0-9]{3}|[0-9]{6}|[0-9]{9}))?s` anchored at both ends, read as
the claim's prose reads it (an optional fractional part of exactly 3, 6 or
9 digits after a dot). -/
def timeout_string_matches (cs : List Char) : Bool :=
  let digits := cs.takeWhile Char.isDigit
  let rest := cs.drop digits.length
  decide (digits ≠ []) &&
  (decide (rest = ['s']) ||
   (decide (rest.take 1 = ['.']) &&
    (let rest2 := rest.drop 1
     let frac := rest2.takeWhile Char.isDigit
     let rest3 := rest2.drop frac.length
     (decide (frac.length = 3) || decide (frac.length = 6) ||
      decide (frac.length = 9)) && decide (rest3 = ['s']))))

/-- The timeout value the claim assigns to a matching string: the integral
part becomes the seconds and the fractional part, scaled by
`10 ^ (9 - digits)`, the nanoseconds. -/
def timeout_value_of_string (cs : List Char) : GprTimespec :=
  let digits := cs.takeWhile Char.isDigit
  let rest := cs.drop digits.length
  if rest.take 1 = ['.'] then
    let frac := (rest.drop 1).takeWhile Char.isDigit
    { tv_sec := (digitsToNat digits : Int)
      tv_nsec := (digitsToNat frac : Int) * (10 : Int) ^ (9 - frac.length) }
  else { tv_sec := (digitsToNat digits : Int), tv_nsec := 0 }

theorem drop_length_takeWhile (p : Char → Bool) (l : List Char) :
    l.drop (l.takeWhile p).length = l.dropWhile p := by
  induction l with
  | nil => rfl
  | cons x xs ih =>
    by_cases hx : p x = true
    · simp [List.takeWhile_cons, List.dropWhile_cons, hx, ih]
    · simp [List.takeWhile_cons, List.dropWhile_cons, hx]

theorem gpr_parse_of_digits (cs : List Char) (hne : cs ≠ [])
    (hdig : cs.all Char.isDigit = true) :
    gpr_parse_nonnegative_int cs = (digitsToNat cs : Int) := by
  unfold gpr_parse_nonnegative_int
  rw [if_pos ⟨hne, hdig⟩]

theorem gpr_parse_ne_neg_one (cs : List Char) (hne : cs ≠ [])
    (hdig : cs.all Char.isDigit = true) :
    ¬ gpr_parse_nonnegative_int cs = -1 := by
  rw [gpr_parse_of_digits cs hne hdig]
  omega

theorem dot_not_mem_of_digits (cs : List Char)
    (h : ∀ x ∈ cs, Char.isDigit x = true) : '.' ∉ cs := by
  intro hm
  have := h '.' hm
  simp [Char.isDigit] at this

theorem timeout_matches_parse (cs : List Char)
    (hm : timeout_string_matches cs = true) :
    parse_timeout_chars cs = some (timeout_value_of_string cs) := by
  have hdw := drop_length_takeWhile Char.isDigit cs
  have hcs := List.takeWhile_append_dropWhile Char.isDigit cs
  have hdigits : ∀ x ∈ cs.takeWhile Char.isDigit, Char.isDigit x = true :=
    fun x hx => List.mem_takeWhile_imp hx
  have hnodot : '.' ∉ cs.takeWhile Char.isDigit :=
    dot_not_mem_of_digits _ hdigits
  have halldig : (cs.takeWhile Char.isDigit).all Char.isDigit = true := by
    rw [List.all_eq_true]
    exact hdigits
  unfold timeout_string_matches at hm
  dsimp only at hm
  rw [hdw] at hm
  simp only [Bool.and_eq_true, Bool.or_eq_true, decide_eq_true_eq] at hm
  obtain ⟨hdne, hcases⟩ := hm
  rcases hcases with hs | ⟨htake, hlen, hrest3⟩
  · have hcs2 : cs = cs.takeWhile Char.isDigit ++ ['s'] := by
      conv_lhs => rw [← hcs]
      rw [hs]
    rw [hcs2]
    unfold parse_timeout_chars timeout_value_of_string
    rw [List.getLast?_concat, List.dropLast_concat]
    dsimp only
    rw [if_neg (show ¬(('s' : Char) ≠ 's') by simp)]
    rw [split_at_first_dot_no_dot _ hnodot]
    dsimp only
    rw [if_neg (gpr_parse_ne_neg_one _ hdne halldig)]
    rw [gpr_parse_of_digits _ hdne halldig]
    rw [takeWhile_append_of_not _ _ _ _ hdigits (by simp [Char.isDigit])]
    rw [List.drop_left]
    rw [if_neg (show ¬((['s'] : List Char).take 1 = ['.']) by decide)]
  · have hR2dw := drop_length_takeWhile Char.isDigit
      ((cs.dropWhile Char.isDigit).drop 1)
    rw [hR2dw] at hrest3
    have hsplitR := take_one_eq_singleton _ _ htake
    have hfracdig : ∀ x ∈ ((cs.dropWhile Char.isDigit).drop 1).takeWhile
        Char.isDigit, Char.isDigit x = true :=
      fun x hx => List.mem_takeWhile_imp hx
    have hfracall : (((cs.dropWhile Char.isDigit).drop 1).takeWhile
        Char.isDigit).all Char.isDigit = true := by
      rw [List.all_eq_true]
      exact hfracdig
    have hR2eq : (cs.dropWhile Char.isDigit).drop 1 =
        ((cs.dropWhile Char.isDigit).drop 1).takeWhile Char.isDigit ++
          ['s'] := by
      conv_lhs => rw [← List.takeWhile_append_dropWhile Char.isDigit
        ((cs.dropWhile Char.isDigit).drop 1)]
      rw [hrest3]
    have hfne : ((cs.dropWhile Char.isDigit).drop 1).takeWhile
        Char.isDigit ≠ [] := by
      intro h0
      rw [h0] at hlen
      simp at hlen
    have hcs2 : cs = cs.takeWhile Char.isDigit ++ '.' ::
        (((cs.dropWhile Char.isDigit).drop 1).takeWhile Char.isDigit ++
          ['s']) := by
      conv_lhs => rw [← hcs]
      rw [← hR2eq, ← hsplitR]
    have hassoc : cs.takeWhile Char.isDigit ++ '.' ::
        (((cs.dropWhile Char.isDigit).drop 1).takeWhile Char.isDigit ++
          ['s']) =
        (cs.takeWhile Char.isDigit ++ '.' ::
          ((cs.dropWhile Char.isDigit).drop 1).takeWhile Char.isDigit)
          ++ ['s'] := by
      simp
    rw [hcs2, hassoc]
    unfold parse_timeout_chars timeout_value_of_string
    rw [List.getLast?_concat, List.dropLast_concat]
    dsimp only
    rw [if_neg (show ¬(('s' : Char) ≠ 's') by simp)]
    rw [split_at_first_dot_dot _ _ hnodot]
    dsimp only
    rw [if_neg (gpr_parse_ne_neg_one _ hfne hfracall)]
    rw [← hassoc]
    rw [takeWhile_append_of_not _ _ _ _ hdigits (by simp [Char.isDigit])]
    rw [List.drop_left]
    rw [show ∀ x : List Char, ('.' :: x).take 1 = ['.'] from fun x => rfl]
    rw [if_pos rfl]
    simp only [List.drop_succ_cons, List.drop_zero]
    rw [takeWhile_append_of_not _ _ _ _ hfracdig (by simp [Char.isDigit])]
    rw [gpr_parse_of_digits _ hfne hfracall]
    rw [gpr_parse_of_digits _ hdne halldig]
    rcases hlen with (h | h) | h <;> rw [h] <;> norm_num <;>
      exact fun h2 => absurd h2 (by omega)

theorem gpr_parse_cond_of_ne (cs : List Char)
    (h : gpr_parse_nonnegative_int cs ≠ -1) :
    cs ≠ [] ∧ cs.all Char.isDigit = true := by
  by_contra hc
  exact h (by unfold gpr_parse_nonnegative_int; rw [if_neg hc])

theorem parse_some_matches (cs : List Char) (t : GprTimespec)
    (h : parse_timeout_chars cs = some t) :
    timeout_string_matches cs = true := by
  unfold parse_timeout_chars at h
  rcases hlast : cs.getLast? with _ | last
  · rw [hlast] at h
    dsimp only at h
    exact Option.noConfusion h
  · rw [hlast] at h
    dsimp only at h
    by_cases hls : last ≠ 's'
    · rw [if_pos hls] at h
      exact Option.noConfusion h
    · rw [if_neg hls] at h
      have hlast_s : last = 's' := not_not.mp hls
      subst hlast_s
      obtain ⟨l', hcs⟩ := List.getLast?_eq_some_iff.mp hlast
      subst hcs
      rw [List.dropLast_concat] at h
      rcases hsp : split_at_first_dot l' with ⟨intPart, fracOpt⟩
      rw [hsp] at h
      cases fracOpt with
      | none =>
        obtain ⟨hl'eq, hnd⟩ := split_at_first_dot_eq_none l' intPart hsp
        dsimp only at h
        by_cases hsec : gpr_parse_nonnegative_int intPart = -1
        · rw [if_pos hsec] at h
          exact Option.noConfusion h
        · obtain ⟨hine, hidig⟩ := gpr_parse_cond_of_ne intPart hsec
          rw [hl'eq]
          unfold timeout_string_matches
          dsimp only
          rw [takeWhile_append_of_not Char.isDigit intPart 's' []
            (fun x hx => List.all_eq_true.mp hidig x hx)
            (by simp [Char.isDigit])]
          rw [List.drop_left]
          simp [hine]
      | some frac =>
        obtain ⟨hl'eq, hnd⟩ := split_at_first_dot_eq_some l' intPart frac hsp
        dsimp only at h
        by_cases hnsec : gpr_parse_nonnegative_int frac = -1
        · rw [if_pos hnsec] at h
          exact Option.noConfusion h
        · rw [if_neg hnsec] at h
          obtain ⟨hfne, hfdig⟩ := gpr_parse_cond_of_ne frac hnsec
          have hlen : frac.length = 9 ∨ frac.length = 6 ∨
              frac.length = 3 := by
            by_contra hc
            push_neg at hc
            obtain ⟨h9, h6, h3⟩ := hc
            rw [if_neg h9, if_neg h6, if_neg h3] at h
            exact Option.noConfusion h
          have hsec : ¬ gpr_parse_nonnegative_int intPart = -1 := by
            intro hs
            rcases hlen with h9 | h6 | h3
            · rw [if_pos h9] at h
              dsimp only at h
              rw [if_pos hs] at h
              exact Option.noConfusion h
            · rw [if_neg (by omega), if_pos h6] at h
              dsimp only at h
              rw [if_pos hs] at h
              exact Option.noConfusion h
            · rw [if_neg (by omega), if_neg (by omega), if_pos h3] at h
              dsimp only at h
              rw [if_pos hs] at h
              exact Option.noConfusion h
          obtain ⟨hine, hidig⟩ := gpr_parse_cond_of_ne intPart hsec
          subst hl'eq
          have hassoc2 : (intPart ++ '.' :: frac) ++ ['s'] =
              intPart ++ '.' :: (frac ++ ['s']) := by simp
          rw [hassoc2]
          unfold timeout_string_matches
          dsimp only
          rw [takeWhile_append_of_not Char.isDigit intPart '.'
            (frac ++ ['s'])
            (fun x hx => List.all_eq_true.mp hidig x hx)
            (by simp [Char.isDigit])]
          rw [List.drop_left]
          simp only [List.drop_succ_cons, List.drop_zero]
          have htw2 := takeWhile_append_of_not Char.isDigit frac 's' []
            (fun x hx => List.all_eq_true.mp hfdig x hx)
            (by simp [Char.isDigit])
          simp only [htw2, List.drop_left]
          rcases hlen with hl | hl | hl <;> simp [hine, hl]

/-- C9: for every nonempty JSON string given as a per-method timeout,
`parse_timeout` succeeds exactly when the string consists of an integral
numeral, an optional fractional part of exactly 3, 6 or 9 digits after a
dot, and a trailing `s`; the integral part becomes the seconds and the
fractional part, scaled to nanoseconds, the `tv_nsec` field.  Any other
fractional-digit count and any string not of this shape is rejected. -/
theorem parse_timeout_regex_spec (cs : List Char) (hne : cs ≠ []) :
    parse_timeout_chars cs =
      if timeout_string_matches cs then some (timeout_value_of_string cs)
      else none := by
  by_cases hm : timeout_string_matches cs = true
  · rw [if_pos hm]
    exact timeout_matches_parse cs hm
  · rw [if_neg hm]
    rcases hp : parse_timeout_chars cs with _ | t
    · rfl
    · exact absurd (parse_some_matches cs t hp) hm

theorem parse_timeout_regex_spec_witness :
    ("1.234s".data ≠ []) ∧
    parse_timeout_chars "1.234s".data =
      (if timeout_string_matches "1.234s".data
       then some (timeout_value_of_string "1.234s".data) else none) :=
  ⟨by decide, parse_timeout_regex_spec "1.234s".data (by decide)⟩

/-- The LB-policy implementations of this tree, plus the pick-first
behaviour the factory name advertises (no such implementation exists in
the tree). -/
inductive PolicyKind where
  | pickFirst
  | roundRobin
  | grpclb
deriving DecidableEq, Repr, Inhabited

/-- A registered LB-policy factory: its advertised `name()` and the
implementation its `CreateLoadBalancingPolicy` constructs. -/
structure LBPolicyFactory where
  fac_name : String
  creates : PolicyKind
deriving DecidableEq, Repr, Inhabited

/-- `RoundRobinFactory` (`round_robin.cc` lines 643-650): its
`CreateLoadBalancingPolicy` builds a `RoundRobin` policy, yet its
`name()` (line 650) returns "pick_first". -/
def RoundRobinFactory : LBPolicyFactory :=
  { fac_name := "pick_first", creates := PolicyKind.roundRobin }

/-- `GrpcLbFactory` (`grpclb.cc` lines 1908-1923): builds `GrpcLb` under
the name "grpclb". -/
def GrpcLbFactory : LBPolicyFactory :=
  { fac_name := "grpclb", creates := PolicyKind.grpclb }

/-- Modelled from the spec: the LB-policy registry holds the factories
the plugins register — `grpc_lb_policy_pick_first_init` (`round_robin.cc`
lines 656-662) registers `RoundRobinFactory` and
`grpc_lb_policy_grpclb_init` (`grpclb.cc` lines 1953-1957) registers
`GrpcLbFactory`. -/
def registered_lb_factories : List LBPolicyFactory :=
  [RoundRobinFactory, GrpcLbFactory]

/-- Modelled from the spec: `grpc_lb_policy_create` resolves the
requested name against the registry and has the matching factory
construct the policy. -/
def grpc_lb_policy_create (nm : String) : Option PolicyKind :=
  (registered_lb_factories.find? (fun f => f.fac_name == nm)).map
    (fun f => f.creates)

/-- LB-policy-name selection in `on_resolver_result_changed_locked`
(`client_channel.c` lines 469-501): take the resolver-supplied
`GRPC_ARG_LB_POLICY_NAME`, force "grpclb" when any resolved address is a
balancer address, and default to "pick_first" when nothing was
selected. -/
def on_resolver_result_lb_policy_name (resolver_name : Option String)
    (addresses : Option (List LbAddress)) : String :=
  let forced : Option String :=
    match addresses with
    | some addrs =>
      if addrs.any (fun a => a.is_balancer) then some "grpclb"
      else resolver_name
    | none => resolver_name
  match forced with
  | some nm => nm
  | none => "pick_first"

/-- C10: the factory registered under the name "pick_first" constructs
the `RoundRobin` policy, so when the resolver result names no LB policy
and none of its addresses is a balancer address, the channel defaults the
name to "pick_first" and the policy it creates is the round-robin
implementation, not a pick-first one. -/
theorem pick_first_creates_round_robin (addresses : List LbAddress)
    (hnb : addresses.all (fun a => !a.is_balancer) = true) :
    on_resolver_result_lb_policy_name none (some addresses) =
      "pick_first" ∧
    RoundRobinFactory.fac_name = "pick_first" ∧
    grpc_lb_policy_create
        (on_resolver_result_lb_policy_name none (some addresses)) =
      some PolicyKind.roundRobin ∧
    PolicyKind.roundRobin ≠ PolicyKind.pickFirst := by
  have hany : addresses.any (fun a => a.is_balancer) = false := by
    rw [List.any_eq_false]
    intro a ha
    have := List.all_eq_true.mp hnb a ha
    simpa using this
  have hname : on_resolver_result_lb_policy_name none (some addresses) =
      "pick_first" := by
    unfold on_resolver_result_lb_policy_name
    dsimp only
    rw [if_neg (by rw [hany]; exact Bool.false_ne_true)]
  refine ⟨hname, rfl, ?_, by decide⟩
  rw [hname]
  decide

theorem pick_first_creates_round_robin_witness :
    ([⟨false, 0⟩, ⟨false, 1⟩] : List LbAddress).all
        (fun a => !a.is_balancer) = true ∧
    (on_resolver_result_lb_policy_name none
        (some [⟨false, 0⟩, ⟨false, 1⟩]) = "pick_first" ∧
     RoundRobinFactory.fac_name = "pick_first" ∧
     grpc_lb_policy_create
         (on_resolver_result_lb_policy_name none
           (some [⟨false, 0⟩, ⟨false, 1⟩])) =
       some PolicyKind.roundRobin ∧
     PolicyKind.roundRobin ≠ PolicyKind.pickFirst) :=
  ⟨by decide,
   pick_first_creates_round_robin [⟨false, 0⟩, ⟨false, 1⟩] (by decide)⟩

/-- The claim's timeout pattern exactly as its regex is written:
in the optional group only the three-digit alternative is preceded by a
dot, the six- and nine-digit alternatives are bare digit runs. -/
def timeout_string_matches_literal (cs : List Char) : Bool :=
  match cs.getLast? with
  | some 's' =>
    let body := cs.dropLast
    let n := body.length
    (decide (n ≥ 1) && body.all Char.isDigit) ||
    (decide (n ≥ 5) && (body.take (n - 4)).all Char.isDigit &&
      decide ((body.drop (n - 4)).take 1 = ['.']) &&
      (body.drop (n - 3)).all Char.isDigit) ||
    (decide (n ≥ 7) && body.all Char.isDigit) ||
    (decide (n ≥ 10) && body.all Char.isDigit)
  | _ => false

/-- C9 counterexample: "1.123456s" does not match the claim's regex as
written (its six-digit alternative carries no dot), yet `parse_timeout`
accepts it, scaling the six fractional digits by 1000. -/
theorem timeout_regex_claim_counterexample :
    timeout_string_matches_literal "1.123456s".data = false ∧
    parse_timeout_chars "1.123456s".data =
      some { tv_sec := 1, tv_nsec := 123456000 } := by decide
